import Mathlib

/-!
Verification development for the Holistique feed-sync scripts
(`scripts/sync-medium.js`, bundled in `send-newsletter.js`, and
`scripts/sync-events.js`).

Strings are embedded as `List Char` (JS strings are sequences of UTF-16
code units; all inputs considered here are plain text, so a character
list is a faithful model).  JS builtins used by the scripts
(`String.prototype.indexOf/substring/replace/split/trim/toLowerCase`,
`Array.prototype.filter/map/slice/join`, `parseInt`, `new URL(...).pathname`)
are modelled by the helper functions below; each helper's doc comment
names the builtin it models.  Regular-expression calls are modelled by
explicit leftmost-match scanners with the same matching semantics on the
pattern in question.
-/

/-- JS whitespace class `\s` (restricted to the code points that occur in
the data handled by the scripts: space, tab, LF, CR, FF, VT). -/
def isJsWs (c : Char) : Bool :=
  c = ' ' || c = '\t' || c = '\n' || c = '\r' || c = '\x0b' || c = '\x0c'

/-- Model of `str.replace(/c/g, r)` for a single-character pattern `c`:
every occurrence of `c` is replaced by `r`. -/
def replaceAllChar (c : Char) (r : List Char) : List Char → List Char
  | [] => []
  | a :: t => if a = c then r ++ replaceAllChar c r t else a :: replaceAllChar c r t

/-- Recursion core of `replaceAllSub`, structural on an explicit fuel
bound (every step consumes at least one character of `s`, so any fuel
above `s.length` behaves like unbounded recursion). -/
def replaceAllSubF (pat rep : List Char) : Nat → List Char → List Char
  | 0, s => s
  | _, [] => []
  | fuel + 1, a :: t =>
    if pat.isPrefixOf (a :: t) then
      rep ++ replaceAllSubF pat rep fuel ((a :: t).drop pat.length)
    else
      a :: replaceAllSubF pat rep fuel t

/-- Model of `str.replace(lit, rep)` with the `g` flag for a literal
non-empty multi-character pattern: leftmost occurrences replaced,
scanning resumes after the replaced occurrence (the replacement itself
is never rescanned). -/
def replaceAllSub (pat rep : List Char) (s : List Char) : List Char :=
  if pat = [] then s else replaceAllSubF pat rep (s.length + 1) s

/-- Character index of the first occurrence of `pat` in `s`
(`s.indexOf(pat)`), as an option (`none` models `-1`). -/
def idxOf (pat : List Char) : List Char → Option Nat
  | [] => if pat.isPrefixOf ([] : List Char) then some 0 else none
  | a :: t =>
    if pat.isPrefixOf (a :: t) then some 0
    else (idxOf pat t).map (· + 1)

/-- Boolean substring test (`s.includes(pat)`, also used to state
infix facts about generated markup). -/
def containsSub (pat : List Char) : List Char → Bool
  | [] => pat.isPrefixOf ([] : List Char)
  | a :: t => pat.isPrefixOf (a :: t) || containsSub pat t

/-- Recursion core of `stripTagsG`, structural on an explicit fuel
bound (each step consumes at least one character). -/
def stripTagsGF : Nat → List Char → List Char
  | 0, s => s
  | _, [] => []
  | fuel + 1, a :: t =>
    if a = '<' then
      let run := t.takeWhile (fun c => c ≠ '>')
      if run.length > 0 && ((t.drop run.length).head? = some '>') then
        stripTagsGF fuel (t.drop (run.length + 1))
      else
        a :: stripTagsGF fuel t
    else
      a :: stripTagsGF fuel t

/-- Model of `str.replace(/<[^>]+>/g, '')`: delete every maximal
`<`…`>` group with a non-empty interior that contains no `>`. -/
def stripTagsG (s : List Char) : List Char :=
  stripTagsGF (s.length + 1) s

/-- Recursion core of `collapseWs`, structural on an explicit fuel
bound (each step consumes at least one character). -/
def collapseWsF : Nat → List Char → List Char
  | 0, s => s
  | _, [] => []
  | fuel + 1, a :: t =>
    if isJsWs a then ' ' :: collapseWsF fuel (t.dropWhile isJsWs)
    else a :: collapseWsF fuel t

/-- Model of `str.replace(/\s+/g, ' ')`: each maximal whitespace run
becomes a single space. -/
def collapseWs (s : List Char) : List Char :=
  collapseWsF (s.length + 1) s

/-- Model of `str.trim()`. -/
def trimJs (s : List Char) : List Char :=
  ((s.dropWhile isJsWs).reverse.dropWhile isJsWs).reverse

/-- Model of `str.toLowerCase()` on ASCII text. -/
def toLowerL (s : List Char) : List Char :=
  s.map Char.toLower

/-- Model of `str.split(sep)` for a single-character separator: always
returns at least one (possibly empty) piece, like the JS builtin. -/
def splitOnChar (sep : Char) : List Char → List (List Char)
  | [] => [[]]
  | a :: t =>
    if a = sep then [] :: splitOnChar sep t
    else
      match splitOnChar sep t with
      | [] => [[a]]
      | p :: ps => (a :: p) :: ps

/-- Recursion core of `splitOnPredRuns`, structural on an explicit fuel
bound (each step consumes at least one character). -/
def splitOnPredRunsF (p : Char → Bool) : Nat → List Char → List (List Char)
  | 0, _ => [[]]
  | _, [] => [[]]
  | fuel + 1, a :: t =>
    if p a then [] :: splitOnPredRunsF p fuel (t.dropWhile p)
    else
      match splitOnPredRunsF p fuel t with
      | [] => [[a]]
      | q :: qs => (a :: q) :: qs

/-- Model of `str.split(/[\s-]+/)` style splitting: split at each maximal
run of characters satisfying `p`, keeping empty boundary pieces exactly
as the JS builtin does. -/
def splitOnPredRuns (p : Char → Bool) (s : List Char) : List (List Char) :=
  splitOnPredRunsF p (s.length + 1) s

/-- Decimal digits of a `Nat` (the text JS interpolates for a number). -/
def natToChars (n : Nat) : List Char :=
  (Nat.repr n).data

/-- Digit-run value used by `parseIntJs`. -/
def digitsVal (r : List Char) : Option Nat :=
  let ds := r.takeWhile Char.isDigit
  if ds = [] then none
  else some (ds.foldl (fun a c => a * 10 + (c.toNat - 48)) 0)

/-- Model of `parseInt(s, 10)`: skip leading whitespace, optional sign,
value of the leading digit run; `none` models `NaN`. -/
def parseIntJs (s : List Char) : Option Int :=
  let t := s.dropWhile isJsWs
  match t with
  | '-' :: r => (digitsVal r).map (fun n => -(n : Int))
  | '+' :: r => (digitsVal r).map (fun n => (n : Int))
  | r => (digitsVal r).map (fun n => (n : Int))

/-- Embedding of `parseInt` applied to a possibly-undefined string
(`parseInt(undefined)` is `NaN`). -/
def parseIntJsU (o : Option (List Char)) : Option Int :=
  match o with
  | some s => parseIntJs s
  | none => none

/-- Helper for `lastIndexOfChar`. -/
def lastIdxAux (c : Char) : Nat → Int → List Char → Int
  | _, acc, [] => acc
  | i, acc, a :: t => lastIdxAux c (i + 1) (if a = c then (i : Int) else acc) t

/-- Model of `str.lastIndexOf(c)` for a single character: last index, or
`-1` when absent. -/
def lastIndexOfChar (c : Char) (s : List Char) : Int :=
  lastIdxAux c 0 (-1) s

/-- Capitalisation step of `pickCategory`:
`w.charAt(0).toUpperCase() + w.slice(1).toLowerCase()`. -/
def capitalizeJs : List Char → List Char
  | [] => []
  | a :: t => Char.toUpper a :: toLowerL t

/-- Embedding of `xs.join(sep)` for a one-character separator. -/
def joinWith (sep : List Char) (xs : List (List Char)) : List Char :=
  List.intercalate sep xs

namespace SyncEvents

/-! Embedding of `scripts/sync-events.js` (the pure core: helpers, card
generators, `replaceSection`, and the per-run update logic of `main`;
the HTTPS transport and `fs` calls are the collaborators the run's pure
core is factored from, so `main` is modelled as a function from the
fetched events, the loaded manifest and the current page texts to the
writes the run performs). -/

/-- Embedding of `escapeHtml` (sync-events.js:97-104): guard for falsy input, then the
four chained global replaces, in source order (`&`, `<`, `>`, `"`). -/
def escapeHtml (s : List Char) : List Char :=
  if s = [] then []
  else
    replaceAllChar '"' "&quot;".data
      (replaceAllChar '>' "&gt;".data
        (replaceAllChar '<' "&lt;".data
          (replaceAllChar '&' "&amp;".data s)))

/-- Embedding of `stripHtml` (sync-events.js:106-109). -/
def stripHtml (s : List Char) : List Char :=
  if s = [] then []
  else trimJs (stripTagsG s)

/-- Embedding of `truncateText` (sync-events.js:111-118). -/
def truncateText (text : List Char) (maxLen : Nat) : List Char :=
  if text = [] then []
  else
    let clean := trimJs (collapseWs (stripHtml text))
    if clean.length ≤ maxLen then clean
    else
      let truncated := clean.take maxLen
      let lastSpace := lastIndexOfChar ' ' truncated
      (if lastSpace > 0 then truncated.take lastSpace.toNat else truncated) ++ "...".data

/-- Embedding of `MONTHS` (sync-events.js:120). -/
def MONTHS : List (List Char) :=
  ["Jan".data, "Feb".data, "Mar".data, "Apr".data, "May".data, "Jun".data,
   "Jul".data, "Aug".data, "Sep".data, "Oct".data, "Nov".data, "Dec".data]

/-- Text JS interpolates for a possibly-`NaN` number (`none` is `NaN`). -/
def numText (o : Option Int) : List Char :=
  match o with
  | some n => (Int.repr n).data
  | none => "NaN".data

/-- Embedding of `MONTHS[month]` under JS indexing: out-of-range or `NaN` indices read
`undefined`, which interpolates as the text `undefined`. -/
def monthText (o : Option Int) : List Char :=
  match o with
  | some i =>
    if 0 ≤ i ∧ i < 12 then MONTHS.getD i.toNat [] else "undefined".data
  | none => "undefined".data

/-- Embedding of `formatDateTime` (sync-events.js:122-140).  `parseInt` is modelled by
`parseIntJs` (`none` = `NaN`); a missing array element is `undefined`,
so `parseInt` of it is `NaN` and interpolating it gives `undefined`. -/
def formatDateTime (isoStr : List Char) : List Char :=
  if isoStr = [] then []
  else
    let parts := splitOnChar 'T' isoStr
    let dateParts := splitOnChar '-' (parts.headD [])
    let timeParts :=
      match parts.get? 1 with
      | some t => if t = [] then [['0'], ['0']] else splitOnChar ':' t
      | none => [['0'], ['0']]
    let year := parseIntJsU (dateParts.get? 0)
    let month := (parseIntJsU (dateParts.get? 1)).map (fun n => n - 1)
    let day := parseIntJsU (dateParts.get? 2)
    let hours0 := parseIntJsU (timeParts.get? 0)
    let minutes := timeParts.get? 1
    let ge12 : Bool := match hours0 with | some h => decide (h ≥ 12) | none => false
    let ampm := if ge12 then "PM".data else "AM".data
    let hours :=
      match hours0 with
      | some h => if h = 0 then some 12 else if h > 12 then some (h - 12) else some h
      | none => none
    let minutesText := match minutes with | some s => s | none => "undefined".data
    monthText month ++ " ".data ++ numText day ++ ", ".data ++ numText year ++
      " &middot; ".data ++ numText hours ++ ":".data ++ minutesText ++
      " ".data ++ ampm

/-- An entry of `FALLBACK_IMAGES` (sync-events.js:28-33). -/
structure FallbackImage where
  keywords : List (List Char)
  url : List Char

/-- Embedding of `FALLBACK_IMAGES` (sync-events.js:28-33). -/
def FALLBACK_IMAGES : List FallbackImage :=
  [ { keywords := ["sound".data, "gong".data],
      url := "https://images.unsplash.com/photo-1591228127791-8e2eaef098d3?w=600&h=400&fit=crop&q=80".data },
    { keywords := ["breath".data],
      url := "https://images.unsplash.com/photo-1544367567-0f2fcb009e0b?w=600&h=400&fit=crop&q=80".data },
    { keywords := ["meditat".data],
      url := "https://images.unsplash.com/photo-1506126613408-eca07ce68773?w=600&h=400&fit=crop&q=80".data },
    { keywords := ["yoga".data],
      url := "https://images.unsplash.com/photo-1575052814086-f385e2e2ad1b?w=600&h=400&fit=crop&q=80".data } ]

/-- Embedding of `DEFAULT_FALLBACK` (sync-events.js:34). -/
def DEFAULT_FALLBACK : List Char :=
  "https://images.unsplash.com/photo-1545389336-cf090694435e?w=600&h=400&fit=crop&q=80".data

/-- JS truthiness of a possibly-undefined string (`undefined` and `''`
are falsy). -/
def optStrTruthy : Option (List Char) → Bool
  | some s => s ≠ []
  | none => false

/-- Eventbrite `name`/`description` objects (only the `text` field is
read by the script). -/
structure TextObj where
  text : List Char
deriving DecidableEq

/-- Eventbrite `logo.original` object. -/
structure OriginalObj where
  url : Option (List Char)
deriving DecidableEq

/-- Eventbrite `logo` object. -/
structure LogoObj where
  original : Option OriginalObj
  url : Option (List Char)
deriving DecidableEq

/-- Eventbrite `venue.address` object. -/
structure AddressObj where
  city : Option (List Char)
deriving DecidableEq

/-- Eventbrite `venue` object. -/
structure VenueObj where
  name : Option (List Char)
  address : Option AddressObj
deriving DecidableEq

/-- Eventbrite `start`/`end` objects; the source field is named `local`,
a Lean keyword, hence `localTime` here. -/
structure TimeObj where
  localTime : List Char
deriving DecidableEq

/-- A raw Eventbrite event as consumed by the script (fields the script
never reads are omitted; `end` is a Lean keyword, hence `endTime`). -/
structure Event where
  id : List Char
  name : Option TextObj
  description : Option TextObj
  url : Option (List Char)
  start : Option TimeObj
  endTime : Option TimeObj
  venue : Option VenueObj
  logo : Option LogoObj
  status : Option (List Char)
deriving DecidableEq

/-- Embedding of `getEventImage` (sync-events.js:142-157). -/
def getEventImage (ev : Event) : List Char :=
  let viaLogo : Option (List Char) :=
    match ev.logo with
    | none => none
    | some lg =>
      let ogUrl : Option (List Char) :=
        match lg.original with
        | some og => og.url
        | none => none
      if lg.original.isSome && optStrTruthy ogUrl then some (ogUrl.getD [])
      else if optStrTruthy lg.url then some (lg.url.getD [])
      else none
  match viaLogo with
  | some u => u
  | none =>
    let nameLower := toLowerL (match ev.name with | some n => n.text | none => [])
    match FALLBACK_IMAGES.find? (fun fb => fb.keywords.any (fun kw => containsSub kw nameLower)) with
    | some fb => fb.url
    | none => DEFAULT_FALLBACK

/-- Embedding of `getEventLocation` (sync-events.js:159-167). -/
def getEventLocation (ev : Event) : List Char :=
  let cityOpt : Option (List Char) :=
    match ev.venue with
    | some v => match v.address with
                | some a => a.city
                | none => none
    | none => none
  if optStrTruthy cityOpt then cityOpt.getD []
  else
    let nameOpt : Option (List Char) :=
      match ev.venue with
      | some v => v.name
      | none => none
    if optStrTruthy nameOpt then nameOpt.getD []
    else "Online".data

/-- Embedding of `replaceSection` (sync-events.js:169-178): `html.indexOf` of each
marker (the end marker is looked up in the whole document, not after the
start marker), `null` when either is absent, otherwise
`before + '\n' + newContent + '\n' + after` with
`before = html.substring(0, startIdx + startMarker.length)` and
`after = html.substring(endIdx)`. -/
def replaceSection (html startMarker endMarker newContent : List Char) :
    Option (List Char) :=
  match idxOf startMarker html, idxOf endMarker html with
  | some startIdx, some endIdx =>
    some (html.take (startIdx + startMarker.length) ++
          '\n' :: newContent ++ '\n' :: html.drop endIdx)
  | _, _ => none

end SyncEvents

namespace SyncEvents

/-- Embedding of `generateEventsPageUpcomingCard` (sync-events.js:182-200): local
derivations then the literal template, byte for byte. -/
def generateEventsPageUpcomingCard (ev : Event) : List Char :=
  let name := match ev.name with | some n => n.text | none => "Untitled Event".data
  let desc := truncateText (match ev.description with | some d => d.text | none => []) 150
  let dateStr := formatDateTime (match ev.start with | some s => s.localTime | none => [])
  let imageUrl := getEventImage ev
  let location := getEventLocation ev
  let eventUrl := match ev.url with
                  | some u => if u = [] then "#".data else u
                  | none => "#".data
  "                    <a href=\"".data ++ escapeHtml eventUrl ++
  "\" class=\"event-card reveal\" target=\"_blank\" rel=\"noopener\">\n                        <img class=\"event-card__img\" src=\"".data ++
  escapeHtml imageUrl ++ "\" alt=\"".data ++ escapeHtml name ++
  "\" loading=\"lazy\">\n                        <div class=\"event-card__body\">\n                            <p class=\"event-card__date\">".data ++
  dateStr ++
  "</p>\n                            <h3 class=\"event-card__title\">".data ++
  escapeHtml name ++
  "</h3>\n                            <p class=\"event-card__desc\">".data ++
  escapeHtml desc ++
  "</p>\n                            <span class=\"event-card__tag\">".data ++
  escapeHtml location ++
  "</span>\n                            <span class=\"event-card__tickets\">Get Tickets &rarr;</span>\n                        </div>\n                    </a>".data

/-- Embedding of `generateEventsPagePastCard` (sync-events.js:202-219). -/
def generateEventsPagePastCard (ev : Event) : List Char :=
  let name := match ev.name with | some n => n.text | none => "Untitled Event".data
  let desc := truncateText (match ev.description with | some d => d.text | none => []) 150
  let dateStr := formatDateTime (match ev.start with | some s => s.localTime | none => [])
  let imageUrl := getEventImage ev
  let location := getEventLocation ev
  let eventUrl := match ev.url with
                  | some u => if u = [] then "#".data else u
                  | none => "#".data
  "                    <a href=\"".data ++ escapeHtml eventUrl ++
  "\" class=\"event-card reveal\" target=\"_blank\" rel=\"noopener\">\n                        <img class=\"event-card__img\" src=\"".data ++
  escapeHtml imageUrl ++ "\" alt=\"".data ++ escapeHtml name ++
  "\" loading=\"lazy\">\n                        <div class=\"event-card__body\">\n                            <p class=\"event-card__date\">".data ++
  dateStr ++
  "</p>\n                            <h3 class=\"event-card__title\">".data ++
  escapeHtml name ++
  "</h3>\n                            <p class=\"event-card__desc\">".data ++
  escapeHtml desc ++
  "</p>\n                            <span class=\"event-card__tag\">".data ++
  escapeHtml location ++
  "</span>\n                        </div>\n                    </a>".data

/-- Embedding of `generateHomepageCard` (sync-events.js:221-239). -/
def generateHomepageCard (ev : Event) : List Char :=
  let name := match ev.name with | some n => n.text | none => "Untitled Event".data
  let desc := truncateText (match ev.description with | some d => d.text | none => []) 150
  let dateStr := formatDateTime (match ev.start with | some s => s.localTime | none => [])
  let imageUrl := getEventImage ev
  let location := getEventLocation ev
  let eventUrl := match ev.url with
                  | some u => if u = [] then "#".data else u
                  | none => "#".data
  "                    <a href=\"".data ++ escapeHtml eventUrl ++
  "\" class=\"event-card stagger-item\" target=\"_blank\" rel=\"noopener\">\n                        <img class=\"event-card__img\" data-pixel-reveal\n                             src=\"".data ++
  escapeHtml imageUrl ++ "\" alt=\"".data ++ escapeHtml name ++
  "\" loading=\"lazy\" crossorigin=\"anonymous\">\n                        <div class=\"event-card__body\">\n                            <p class=\"event-card__date\">".data ++
  dateStr ++
  "</p>\n                            <h3 class=\"event-card__title\">".data ++
  escapeHtml name ++
  "</h3>\n                            <p class=\"event-card__desc\">".data ++
  escapeHtml desc ++
  "</p>\n                            <span class=\"event-card__tag\">".data ++
  escapeHtml location ++
  "</span>\n                        </div>\n                    </a>".data

/-- The manifest entry `extractEventData` produces (sync-events.js:286-299). -/
structure EventData where
  id : List Char
  name : List Char
  description : List Char
  url : List Char
  startLocal : List Char
  endLocal : List Char
  venueName : Option (List Char)
  city : Option (List Char)
  imageUrl : List Char
  status : Option (List Char)
deriving DecidableEq

/-- Embedding of `extractEventData` (sync-events.js:286-299). -/
def extractEventData (ev : Event) : EventData :=
  { id := ev.id
    name := match ev.name with | some n => n.text | none => "Untitled Event".data
    description := truncateText (match ev.description with | some d => d.text | none => []) 150
    url := match ev.url with
           | some u => if u = [] then [] else u
           | none => []
    startLocal := match ev.start with | some s => s.localTime | none => []
    endLocal := match ev.endTime with | some s => s.localTime | none => []
    venueName := match ev.venue with | some v => v.name | none => none
    city := match ev.venue with
            | some v => match v.address with
                        | some a => a.city
                        | none => none
            | none => none
    imageUrl := getEventImage ev
    status := ev.status }

/-- Embedding of `events-manifest.json` as loaded/saved by the script
(sync-events.js:250-257, 382-386). -/
structure EventsManifest where
  lastSync : Option (List Char)
  upcoming : List EventData
  past : List EventData
deriving DecidableEq

/-- Begin marker of the upcoming section (sync-events.js:317). -/
def UPCOMING_START : List Char := "<!-- EVENTS-UPCOMING-START -->".data

/-- End marker of the upcoming section (sync-events.js:318). -/
def UPCOMING_END : List Char := "<!-- EVENTS-UPCOMING-END -->".data

/-- Begin marker of the past section (sync-events.js:335). -/
def PAST_START : List Char := "<!-- EVENTS-PAST-START -->".data

/-- End marker of the past section (sync-events.js:336). -/
def PAST_END : List Char := "<!-- EVENTS-PAST-END -->".data

/-- Begin marker of the homepage section (sync-events.js:366). -/
def HOMEPAGE_START : List Char := "<!-- HOMEPAGE-EVENTS-START -->".data

/-- End marker of the homepage section (sync-events.js:367). -/
def HOMEPAGE_END : List Char := "<!-- HOMEPAGE-EVENTS-END -->".data

/-- Empty-state message of the upcoming section (sync-events.js:313). -/
def upcomingEmptyMsg : List Char :=
  "                    <p class=\"events__empty reveal\">Events are coming soon. Follow us on <a href=\"https://instagram.com/yvonne.holistique/\" target=\"_blank\">Instagram</a> for updates.</p>".data

/-- Empty-state message of the past section (sync-events.js:331). -/
def pastEmptyMsg : List Char :=
  "                    <p class=\"events__empty reveal\">No past events to show yet.</p>".data

/-- Empty-state message of the homepage section (sync-events.js:362). -/
def homepageEmptyMsg : List Char :=
  "                    <p class=\"events__empty stagger-item\">Events are coming soon. Follow us on <a href=\"https://instagram.com/yvonne.holistique/\" target=\"_blank\">Instagram</a> for updates.</p>".data

/-- The card list rendered into the past section of `events.html`
(sync-events.js:329-331; the argument is the already-sliced list). -/
def pastCards (pastEvents : List Event) : List (List Char) :=
  pastEvents.map generateEventsPagePastCard

/-- Embedding of `upcomingContent` (sync-events.js:311-313). -/
def upcomingSectionContent (upcomingEvents : List Event) : List Char :=
  if upcomingEvents.length > 0 then
    joinWith ['\n'] (upcomingEvents.map generateEventsPageUpcomingCard)
  else upcomingEmptyMsg

/-- Embedding of `pastContent` (sync-events.js:329-331). -/
def pastSectionContent (pastEvents : List Event) : List Char :=
  if pastEvents.length > 0 then
    joinWith ['\n'] (pastCards pastEvents)
  else pastEmptyMsg

/-- The `events.html` update steps of `main` (sync-events.js:307-349):
both sections attempted in order on the same evolving text; returns the
final text, the `changed` flag, and the number of marker warnings.
(`if (updatedUpcoming)` tests JS truthiness; `replaceSection` never
returns an empty string on success, so truthiness is `isSome`.) -/
def updateEventsHtml (html upContent pastContent : List Char) :
    List Char × Bool × Nat :=
  let step1 :=
    match replaceSection html UPCOMING_START UPCOMING_END upContent with
    | some h => (h, true, 0)
    | none => (html, false, 1)
  let step2 :=
    match replaceSection step1.1 PAST_START PAST_END pastContent with
    | some h => (h, true, 0)
    | none => (step1.1, false, 1)
  (step2.1, step1.2.1 || step2.2.1, step1.2.2 + step2.2.2)

/-- The writes one events-sync run performs, plus the change signal
(sync-events.js:243-399).  `none` in a page slot means the file was not
written (missing file or missing markers); the manifest is written
unconditionally (sync-events.js:386). -/
structure EventsSyncOut where
  eventsPageWrite : Option (List Char)
  indexPageWrite : Option (List Char)
  manifestWrite : EventsManifest
  eventsChanged : Bool
  warnings : Nat
deriving DecidableEq

/-- The pure core of `main` (sync-events.js:243-399), from the fetched
event lists, the loaded manifest, the current page texts (`none` models
a missing file) and the run timestamp `now` (`new Date().toISOString()`)
to the writes performed.  The `EVENTS_CHANGED` signal compares
`JSON.stringify` of old and new upcoming/past data; on records produced
by this script that string comparison coincides with structural
equality, which is how it is modelled. -/
def eventsSyncCore (now : List Char) (m : EventsManifest)
    (upcomingEvents pastEventsRaw : List Event)
    (eventsHtml? indexHtml? : Option (List Char)) : EventsSyncOut :=
  let pastEvents := pastEventsRaw.take 12
  let upcomingData := upcomingEvents.map extractEventData
  let pastData := pastEvents.map extractEventData
  let eventsStep : Option (List Char) × Nat :=
    match eventsHtml? with
    | none => (none, 1)
    | some h =>
      let r := updateEventsHtml h (upcomingSectionContent upcomingEvents)
                                  (pastSectionContent pastEvents)
      (if r.2.1 then some r.1 else none, r.2.2)
  let indexStep : Option (List Char) × Nat :=
    match indexHtml? with
    | none => (none, 1)
    | some h =>
      let top3 := upcomingEvents.take 3
      let content := if top3.length > 0 then
                       joinWith ['\n'] (top3.map generateHomepageCard)
                     else homepageEmptyMsg
      match replaceSection h HOMEPAGE_START HOMEPAGE_END content with
      | some h2 => (some h2, 0)
      | none => (none, 1)
  { eventsPageWrite := eventsStep.1
    indexPageWrite := indexStep.1
    manifestWrite := { lastSync := some now, upcoming := upcomingData, past := pastData }
    eventsChanged := !(decide (upcomingData = m.upcoming) && decide (pastData = m.past))
    warnings := eventsStep.2 + indexStep.2 }

end SyncEvents

namespace SyncMedium

/-! Embedding of the Medium→blog sync script (`scripts/sync-medium.js`,
bundled after `send-newsletter.js` in this repository's source drop):
RSS item extraction, content processing, card/page generation, and the
new-post reconciliation of `main`.  The HTTPS fetch and the `fs`
reads/writes are collaborators; `main`'s pure core is modelled as a
function from the fetched items and the loaded manifest to the updated
manifest and the rendered card fragments.  `formatDate` calls the JS
`Date` builtin, whose parsing and month/day fields depend on the host
time zone; it is therefore kept abstract as a function parameter
`fmtDate` of the run model. -/

/-- Embedding of `escapeHtml` (sync-medium.js lines 149-155 of the bundle): the four
chained global replaces, in source order (`&`, `<`, `>`, `"`). -/
def escapeHtml (s : List Char) : List Char :=
  replaceAllChar '"' "&quot;".data
    (replaceAllChar '>' "&gt;".data
      (replaceAllChar '<' "&lt;".data
        (replaceAllChar '&' "&amp;".data s)))

/-- Character of `[0-9A-Fa-f]`. -/
def isHexDigitJs (c : Char) : Bool :=
  (('0' ≤ c && c ≤ '9') || ('a' ≤ c && c ≤ 'f')) || ('A' ≤ c && c ≤ 'F')

/-- Value of one hex digit. -/
def hexDigitVal (c : Char) : Nat :=
  if '0' ≤ c && c ≤ '9' then c.toNat - 48
  else if 'a' ≤ c && c ≤ 'f' then c.toNat - 87
  else c.toNat - 55

/-- Value of a hex digit run. -/
def hexVal (ds : List Char) : Nat :=
  ds.foldl (fun a c => a * 16 + hexDigitVal c) 0

/-- Value of a decimal digit run. -/
def decVal (ds : List Char) : Nat :=
  ds.foldl (fun a c => a * 10 + (c.toNat - 48)) 0

/-- The `&#x…;` pass of `decodeHtmlEntities`
(`.replace(/&#x([0-9A-Fa-f]+);/g, …fromCharCode(parseInt(hex,16)))`).
`String.fromCharCode` truncates to 16 bits; `Char.ofNat` is its model
for results that are valid scalar values (all inputs handled here). -/
def decodeHexEntitiesF : Nat → List Char → List Char
  | 0, s => s
  | fuel + 1, '&' :: '#' :: 'x' :: rest =>
    let ds := rest.takeWhile isHexDigitJs
    if ds.length > 0 && ((rest.drop ds.length).head? = some ';') then
      Char.ofNat (hexVal ds % 65536) ::
        decodeHexEntitiesF fuel (rest.drop (ds.length + 1))
    else
      '&' :: decodeHexEntitiesF fuel ('#' :: 'x' :: rest)
  | fuel + 1, a :: t => a :: decodeHexEntitiesF fuel t
  | _, [] => []

/-- Wrapper for `decodeHexEntitiesF` with always-sufficient fuel (each
step consumes at least one character). -/
def decodeHexEntities (s : List Char) : List Char :=
  decodeHexEntitiesF (s.length + 1) s

/-- The `&#…;` pass of `decodeHtmlEntities`
(`.replace(/&#(\d+);/g, …fromCharCode(parseInt(dec,10)))`). -/
def decodeDecEntitiesF : Nat → List Char → List Char
  | 0, s => s
  | fuel + 1, '&' :: '#' :: rest =>
    let ds := rest.takeWhile Char.isDigit
    if ds.length > 0 && ((rest.drop ds.length).head? = some ';') then
      Char.ofNat (decVal ds % 65536) ::
        decodeDecEntitiesF fuel (rest.drop (ds.length + 1))
    else
      '&' :: decodeDecEntitiesF fuel ('#' :: rest)
  | fuel + 1, a :: t => a :: decodeDecEntitiesF fuel t
  | _, [] => []

/-- Wrapper for `decodeDecEntitiesF` with always-sufficient fuel (each
step consumes at least one character). -/
def decodeDecEntities (s : List Char) : List Char :=
  decodeDecEntitiesF (s.length + 1) s

/-- Embedding of `decodeHtmlEntities` (sync-medium.js:157-168): the eight literal
replaces in source order, then the hex pass, then the decimal pass.
The replaces are sequential, so the model reproduces the source's
double-decoding of e.g. `&amp;lt;`. -/
def decodeHtmlEntities (s : List Char) : List Char :=
  decodeDecEntities
    (decodeHexEntities
      (replaceAllSub "&nbsp;".data " ".data
        (replaceAllSub "&hellip;".data "…".data
          (replaceAllSub "&mdash;".data "—".data
            (replaceAllSub "&#39;".data "\x27".data
              (replaceAllSub "&quot;".data "\"".data
                (replaceAllSub "&gt;".data ">".data
                  (replaceAllSub "&lt;".data "<".data
                    (replaceAllSub "&amp;".data "&".data s)))))))))

/-- Leftmost-position scan: try the single-position matcher at every
suffix, left to right (regex leftmost-match semantics). -/
def scanFirst (try1 : List Char → Option (List Char)) : List Char → Option (List Char)
  | [] => try1 []
  | a :: t =>
    match try1 (a :: t) with
    | some r => some r
    | none => scanFirst try1 t

end SyncMedium

namespace SyncMedium

/-- The `<item>([\s\S]*?)<\/item>` blocks of `extractItems`
(sync-medium.js:173-200): each lazy block, scanning resuming after the
closing tag. -/
def itemBlocksF : Nat → List Char → List (List Char)
  | 0, _ => []
  | fuel + 1, s =>
    match idxOf "<item>".data s with
    | none => []
    | some i =>
      let afterOpen := s.drop (i + 6)
      match idxOf "</item>".data afterOpen with
      | none => []
      | some j => afterOpen.take j :: itemBlocksF fuel (afterOpen.drop (j + 7))

/-- Wrapper for `itemBlocksF` with always-sufficient fuel (each matched
block consumes at least one character of the document). -/
def itemBlocks (s : List Char) : List (List Char) :=
  itemBlocksF (s.length + 1) s

/-- First alternative of the per-tag regex of `get`
(sync-medium.js:180): `<tag[^>]*><![CDATA[([\s\S]*?)]]></tag>`,
tried at one position. -/
def tryTagCData (tag : List Char) (s : List Char) : Option (List Char) :=
  if ('<' :: tag).isPrefixOf s then
    let after := s.drop (1 + tag.length)
    let run := after.takeWhile (fun c => c ≠ '>')
    match after.drop run.length with
    | '>' :: rest =>
      if "<![CDATA[".data.isPrefixOf rest then
        let body := rest.drop 9
        match idxOf ("]]></".data ++ tag ++ ">".data) body with
        | some j => some (body.take j)
        | none => none
      else none
    | _ => none
  else none

/-- Second alternative of the per-tag regex of `get`
(sync-medium.js:180): `<tag[^>]*>([\s\S]*?)</tag>`, tried at one
position. -/
def tryTagPlain (tag : List Char) (s : List Char) : Option (List Char) :=
  if ('<' :: tag).isPrefixOf s then
    let after := s.drop (1 + tag.length)
    let run := after.takeWhile (fun c => c ≠ '>')
    match after.drop run.length with
    | '>' :: rest =>
      match idxOf ("</".data ++ tag ++ ">".data) rest with
      | some j => some (rest.take j)
      | none => none
    | _ => none
  else none

/-- The per-tag regex of `get`: alternation, first alternative
preferred at each position. -/
def tryTag (tag : List Char) (s : List Char) : Option (List Char) :=
  match tryTagCData tag s with
  | some r => some r
  | none => tryTagPlain tag s

/-- Embedding of `get` (sync-medium.js:179-182): leftmost match of the tag regex,
capture decoded and trimmed (`decodeHtmlEntities((m[1]||m[2]||'').trim())`),
empty string when the tag is absent. -/
def getTag (tag : List Char) (block : List Char) : List Char :=
  match scanFirst (tryTag tag) block with
  | some cap => decodeHtmlEntities (trimJs cap)
  | none => []

/-- The `content:encoded` regex (sync-medium.js:187-190), tried at one
position: `<content:encoded><![CDATA[([\s\S]*?)]]></content:encoded>`. -/
def tryContentEnc (s : List Char) : Option (List Char) :=
  if "<content:encoded><![CDATA[".data.isPrefixOf s then
    let body := s.drop 26
    match idxOf "]]></content:encoded>".data body with
    | some j => some (body.take j)
    | none => none
  else none

/-- Embedding of `contentEncoded` of one item block (raw capture, no decoding). -/
def scanContentEncoded (block : List Char) : List Char :=
  (scanFirst tryContentEnc block).getD []

/-- One position of `catRegex` (sync-medium.js:192):
`<category><![CDATA[([\s\S]*?)]]></category>|<category>([^<]*)</category>`;
returns the capture and the full match length. -/
def tryCatAt (s : List Char) : Option (List Char × Nat) :=
  if "<category><![CDATA[".data.isPrefixOf s then
    match idxOf "]]></category>".data (s.drop 19) with
    | some j => some ((s.drop 19).take j, 19 + j + 14)
    | none => none
  else if "<category>".data.isPrefixOf s then
    if "</category>".data.isPrefixOf
        ((s.drop 10).drop ((s.drop 10).takeWhile (fun c => c ≠ '<')).length) then
      some ((s.drop 10).takeWhile (fun c => c ≠ '<'),
            10 + ((s.drop 10).takeWhile (fun c => c ≠ '<')).length + 11)
    else none
  else none

/-- The `while exec` loop over `catRegex` (sync-medium.js:193-196):
leftmost matches, scanning resuming after each full match, each capture
trimmed. -/
def scanCategoriesF : Nat → List Char → List (List Char)
  | 0, _ => []
  | _, [] => []
  | fuel + 1, a :: t =>
    match tryCatAt (a :: t) with
    | some r => trimJs r.1 :: scanCategoriesF fuel ((a :: t).drop r.2)
    | none => scanCategoriesF fuel t

/-- Wrapper for `scanCategoriesF` with always-sufficient fuel (each
match consumes at least one character). -/
def scanCategories (s : List Char) : List (List Char) :=
  scanCategoriesF (s.length + 1) s

/-- A raw RSS item as produced by `extractItems`
(sync-medium.js:198). -/
structure Item where
  title : List Char
  link : List Char
  pubDate : List Char
  contentEncoded : List Char
  categories : List (List Char)
deriving DecidableEq

/-- Embedding of `extractItems` (sync-medium.js:173-201). -/
def extractItems (xml : List Char) : List Item :=
  (itemBlocks xml).map (fun block =>
    { title := getTag "title".data block
      link := getTag "link".data block
      pubDate := getTag "pubDate".data block
      contentEncoded := scanContentEncoded block
      categories := scanCategories block })

end SyncMedium

namespace SyncMedium

/-- One position of the `src` part of the image regex
(sync-medium.js:207): `src=["']([^"']+)["']` (the closing quote may be
either quote character, as in the character class). -/
def trySrcAt (s : List Char) : Option (List Char) :=
  if "src=".data.isPrefixOf s then
    match s.drop 4 with
    | q :: rest =>
      if q = '"' ∨ q = '\x27' then
        let cap := rest.takeWhile (fun c => ¬(c = '"' ∨ c = '\x27'))
        if cap.length > 0 &&
            ((rest.drop cap.length).head?.elim false (fun c => c = '"' ∨ c = '\x27')) then
          some cap
        else none
      else none
    | [] => none
  else none

/-- Backtracking of the greedy `[^>]+` of `<img[^>]+src=…`: the latest
start of `src=` inside the `>`-free run wins; `k` counts down from the
run length (the `[^>]+` part must take at least one character). -/
def lastSrcIn (after : List Char) : Nat → Option (List Char)
  | 0 => none
  | k + 1 =>
    match trySrcAt (after.drop (k + 1)) with
    | some cap => some cap
    | none => lastSrcIn after k

/-- One position of `<img[^>]+src=["']([^"']+)["']`
(sync-medium.js:207, 218). -/
def tryImgTag (s : List Char) : Option (List Char) :=
  if "<img".data.isPrefixOf s then
    lastSrcIn (s.drop 4) ((s.drop 4).takeWhile (fun c => c ≠ '>')).length
  else none

/-- One position of `/resize:fit:\d+/` (sync-medium.js:211, 221),
returning the length of the match. -/
def tryResizeAt (s : List Char) : Option Nat :=
  if "/resize:fit:".data.isPrefixOf s then
    let ds := (s.drop 12).takeWhile Char.isDigit
    if ds.length > 0 && ((s.drop (12 + ds.length)).head? = some '/') then
      some (12 + ds.length + 1)
    else none
  else none

/-- Embedding of `src.replace(/\/resize:fit:\d+\//, target)`: first occurrence only
(no `g` flag). -/
def replaceResizeFirst (target : List Char) : List Char → List Char
  | [] => []
  | a :: t =>
    match tryResizeAt (a :: t) with
    | some len => target ++ (a :: t).drop len
    | none => a :: replaceResizeFirst target t

/-- Embedding of `extractHeroImage` (sync-medium.js:205-215). -/
def extractHeroImage (html : List Char) : List Char :=
  match scanFirst tryImgTag html with
  | some src => replaceResizeFirst "/resize:fit:1400/".data src
  | none => []

/-- Embedding of `extractCardImage` (sync-medium.js:217-225). -/
def extractCardImage (html : List Char) : List Char :=
  match scanFirst tryImgTag html with
  | some src => replaceResizeFirst "/resize:fit:700/".data src
  | none => []

/-- One position of `<p[^>]*>([\s\S]*?)<\/p>` (sync-medium.js:229). -/
def tryPTag (s : List Char) : Option (List Char) :=
  if "<p".data.isPrefixOf s then
    match (s.drop 2).drop ((s.drop 2).takeWhile (fun c => c ≠ '>')).length with
    | '>' :: body =>
      match idxOf "</p>".data body with
      | some j => some (body.take j)
      | none => none
    | _ => none
  else none

/-- Embedding of `extractExcerpt` (sync-medium.js:227-237): first `<p>` capture, tags
stripped, entities decoded, trimmed; text longer than 160 characters is
cut at character 157 and suffixed with `...`. -/
def extractExcerpt (html : List Char) : List Char :=
  match scanFirst tryPTag html with
  | some inner =>
    let text := trimJs (decodeHtmlEntities (stripTagsG inner))
    if text.length > 160 then text.take 157 ++ "...".data else text
  | none => []

/-- Embedding of `estimateReadTime` (sync-medium.js:287-291): strip tags, count the
non-empty `\s+`-separated words, `max(2, ceil(words / 200))`. -/
def estimateReadTime (html : List Char) : Nat :=
  let words := ((splitOnPredRuns isJsWs (stripTagsG html)).filter
    (fun w => w.length > 0)).length
  max 2 ((words + 199) / 200)

/-- The generic-tag stoplist of `pickCategory` (sync-medium.js:301). -/
def skipTags : List (List Char) :=
  ["medium".data, "blog".data, "writing".data, "life".data, "self".data, "culture".data]

/-- Embedding of `pickCategory` (sync-medium.js:299-308). -/
def pickCategory (categories : List (List Char)) : List Char :=
  let filtered := categories.filter (fun c => !(skipTags.contains (toLowerL c)))
  match filtered with
  | c :: _ =>
    joinWith [' ']
      ((splitOnPredRuns (fun ch => isJsWs ch || ch = '-') c).map capitalizeJs)
  | [] => "Journal".data

/-- Embedding of `generateCardHtml` (sync-medium.js:457-467): the literal template,
byte for byte (it opens with a newline). -/
def generateCardHtml (number : Nat) (title category excerpt : List Char)
    (readTime : Nat) (date cardImage : List Char) : List Char :=
  "\n                        <!-- Card ".data ++ natToChars number ++
  " (auto-synced) -->\n                        <a href=\"post-".data ++
  natToChars number ++
  ".html\" class=\"article-card\">\n                            <img class=\"card-img\" src=\"".data ++
  cardImage ++ "\" alt=\"".data ++ escapeHtml title ++
  "\">\n                            <span class=\"card-category\">".data ++
  escapeHtml category ++
  "</span>\n                            <h3 class=\"card-title\">".data ++
  escapeHtml title ++
  "</h3>\n                            <p class=\"card-excerpt\">".data ++
  escapeHtml excerpt ++
  "</p>\n                            <span class=\"card-meta\">".data ++
  natToChars readTime ++ " Min Read &middot; ".data ++ date ++
  "</span>\n                        </a>".data

end SyncMedium

namespace SyncMedium

/-- Scheme step of the `new URL(...)` model: the two schemes occurring
in the data this script handles. -/
def dropUrlScheme (s : List Char) : Option (List Char) :=
  if "https://".data.isPrefixOf s then some (s.drop 8)
  else if "http://".data.isPrefixOf s then some (s.drop 7)
  else none

/-- Model of the `pathname` of the WHATWG `URL` builtin for http(s)
URLs, as used on the Medium/blog links this script handles: the text
after the authority up to the first `?` or `#`, or `/` when the
authority is immediately followed by the query/fragment or the end;
`none` models the constructor throwing (no scheme or empty host), which
the script catches.  Percent-encoding normalization is not modelled
(the links involved contain no characters subject to it). -/
def urlPathname (s : List Char) : Option (List Char) :=
  match dropUrlScheme s with
  | none => none
  | some rest =>
    let auth := rest.takeWhile (fun c => ¬(c = '/' ∨ c = '?' ∨ c = '#'))
    if auth.length = 0 then none
    else
      match rest.drop auth.length with
      | [] => some ['/']
      | c :: t =>
        if c = '/' then some ((c :: t).takeWhile (fun c2 => ¬(c2 = '?' ∨ c2 = '#')))
        else some ['/']

/-- Embedding of `pathname.replace(/\/$/, '')` (sync-medium.js:491, 502): drop one
trailing slash when present. -/
def dropTrailingSlash (p : List Char) : List Char :=
  if p.getLast? = some '/' then p.dropLast else p

/-- The normalized URL key of `main` (sync-medium.js:487-495, 500-505):
`new URL(u).pathname` with the trailing slash stripped, or the raw
string when the URL constructor throws. -/
def normalizeLink (l : List Char) : List Char :=
  match urlPathname l with
  | some p => dropTrailingSlash p
  | none => l

/-- An entry of `posts-manifest.json` as written by `main`
(sync-medium.js:558-565). -/
structure Post where
  number : Nat
  title : List Char
  mediumUrl : List Char
  file : List Char
  date : List Char
  category : List Char
deriving DecidableEq

/-- Embedding of `posts-manifest.json` (sync-medium.js:485, 516, 568). -/
structure Manifest where
  lastPostNumber : Nat
  posts : List Post
deriving DecidableEq

/-- Embedding of `existingTitles` (sync-medium.js:486): the set of lower-cased
manifest titles, modelled as the list of its members (membership is all
the script uses). -/
def existingTitles (m : Manifest) : List (List Char) :=
  m.posts.map (fun p => toLowerL p.title)

/-- Embedding of `existingUrls` (sync-medium.js:487-495): the set of normalized
manifest URLs. -/
def existingUrls (m : Manifest) : List (List Char) :=
  m.posts.map (fun p => normalizeLink p.mediumUrl)

/-- The predicate of the `newItems` filter (sync-medium.js:498-507):
`!existingTitles.has(titleLower) && !existingUrls.has(pathName)`. -/
def isNew (m : Manifest) (it : Item) : Bool :=
  !((existingTitles m).contains (toLowerL it.title)) &&
  !((existingUrls m).contains (normalizeLink it.link))

/-- The manifest entry pushed for one new item
(sync-medium.js:541, 558-565); `n` is the already-incremented
`nextNumber`, `fmtDate` the `Date`-based `formatDate`. -/
def mkPost (fmtDate : List Char → List Char) (n : Nat) (it : Item) : Post :=
  { number := n
    title := it.title
    mediumUrl := it.link
    file := "post-".data ++ natToChars n ++ ".html".data
    date := fmtDate it.pubDate
    category := pickCategory it.categories }

/-- The card pushed for one new item (sync-medium.js:547-555). -/
def mkCard (fmtDate : List Char → List Char) (n : Nat) (it : Item) : List Char :=
  generateCardHtml n it.title (pickCategory it.categories)
    (extractExcerpt it.contentEncoded) (estimateReadTime it.contentEncoded)
    (fmtDate it.pubDate) (extractCardImage it.contentEncoded)

/-- The `for (const item of newItems)` loop of `main`
(sync-medium.js:516-566): the running `nextNumber` is incremented
before each use; returns the final counter, the pushed manifest entries
and the pushed cards, in loop order. -/
def importLoop (fmtDate : List Char → List Char) (nextNumber : Nat) :
    List Item → Nat × List Post × List (List Char)
  | [] => (nextNumber, [], [])
  | it :: rest =>
    let n := nextNumber + 1
    let r := importLoop fmtDate n rest
    (r.1, mkPost fmtDate n it :: r.2.1, mkCard fmtDate n it :: r.2.2)

/-- The pure core of `main` (sync-medium.js:471-589) from the extracted
items and the loaded manifest to the run's outcome: `none` models the
early return when no new items exist (before any write,
sync-medium.js:509-512); otherwise the committed manifest (entries
appended in loop order, `lastPostNumber` advanced to the final
`nextNumber`) and the cards destined for `blog-post.html`. -/
def syncRun (fmtDate : List Char → List Char) (m : Manifest)
    (items : List Item) : Option (Manifest × List (List Char)) :=
  let newItems := items.filter (fun it => isNew m it)
  if newItems.length = 0 then none
  else
    let r := importLoop fmtDate m.lastPostNumber newItems
    some ({ lastPostNumber := r.1, posts := m.posts ++ r.2.1 }, r.2.2)

end SyncMedium

namespace SyncMedium

/-- Embedding of `generatePostHtml` (sync-medium.js:312-455): the full standalone
page template, byte for byte, with the seven interpolation sites in
source order (`title` escaped at all three of its sites, `heroImage`,
`date`, `readTime` and `bodyHtml` interpolated raw); the longest
literal stretches are written as several adjacent literals. -/
def generatePostHtml (title subtitle category date : List Char)
    (readTime : Nat) (heroImage bodyHtml : List Char) : List Char :=
  "<!DOCTYPE html>
<html lang=\"en\">
<head>
    <meta charset=\"UTF-8\">
    <meta name=\"viewport\" content=\"width=device-width, initial-scale=1.0\">
    <title>".data ++
  (escapeHtml title ++
  (" — Holistique UK</title>
    <link rel=\"preconnect\" href=\"https://fonts.googleapis.com\">
    <link rel=\"preconnect\" href=\"https://fonts.gstatic.com\" crossorigin>
    <link href=\"https://fonts.googleapis.com/css2?family=Marcellus&family=Inter:wght@300;400;500;600&family=JetBrains+Mono:wght@400&display=swap\" rel=\"stylesheet\">
    <style>
        *, *::before, *::after \x7b margin: 0; padding: 0; box-sizing: border-box; \x7d
        html \x7b font-size: 16px; -webkit-font-smoothing: antialiased; \x7d
        body \x7b font-family: \x27Inter\x27, -apple-system, BlinkMacSystemFont, \x27Segoe UI\x27, sans-serif; font-weight: 300; font-size: 18px; background: #FFFFFF; color: #111827; line-height: 1.8; overflow-x: hidden; opacity: 0; transition: opacity 0.6s ease; \x7d
        body.loaded \x7b opacity: 1; \x7d
        a \x7b text-decoration: none; color: inherit; \x7d img \x7b display: block; max-width: 100%; \x7d
        .site-header \x7b position: sticky; top: 0; z-index: 100; height: 80px; background: #FFFFFF; border-bottom: 1px solid #E5E7EB; display: flex; align-items: center; \x7d
        .header-inner \x7b display: flex; align-items: center; justify-content: space-between; width: 100%; max-width: 1280px; margin: 0 auto; padding: 0 32px; \x7d
        .header-logo a \x7b font-family: \x27Inter\x27, sans-serif; font-weight: 500; font-size: 14px; text-transform: uppercase; letter-spacing: 0.2em; color: #111827; transition: opacity 200ms; \x7d
        .header-logo a:hover \x7b opacity: 0.7; \x7d
        .header-nav \x7b display: flex; align-items: center; gap: 32px; \x7d
        .header-nav a \x7b font-family: \x27Inter\x27, sans-serif; font-weight: 500; font-size: 12px; text-transform: uppercase; letter-spacing: 0.1em; color: #9CA3AF; transition: color 200ms; \x7d
        .header-nav a:hover \x7b color: #111827; \x7d
        .article-hero \x7b width: 100%; max-height: 560px; overflow: hidden; \x7d
        .article-hero img \x7b width: 100%; height: 560px; object-fit: cover; \x7d
        .article-container \x7b max-width: 720px; margin: 0 auto; padding: 48px 32px 80px; \x7d
        .article-category \x7b display: inline-block; background: #F3F4F6; padding: 4px 12px; font-family: \x27Inter\x27, sans-serif; font-weight: 500; font-size: 11px; text-transform: uppercase; letter-spacing: 0.1em; color: #111827; \x7d
        .article-title \x7b font-family: \x27Marcellus\x27, Georgia, serif; font-size: clamp(2rem, 5vw, 3rem); line-height: 1.15; margin-top: 16px; color: #111827; \x7d
        .article-subtitle \x7b font-weight: 300; font-size: 1.25rem; color: #6B7280; margin-top: 16px; line-height: 1.5; padding-left: 16px; border-left: 2px solid #E5E7EB; \x7d
        .article-meta \x7b font-family: \x27JetBrains Mono\x27, monospace; font-size: 12px; color: #9CA3AF; text-transform: uppercase; letter-spacing: 0.05em; margin-top: 24px; padding-bottom: 32px; border-bottom: 1px solid #E5E7EB; \x7d
        .article-body \x7b margin-top: 40px; \x7d
        .article-body p \x7b margin-bottom: 24px; font-size: 18px; line-height: 1.8; color: #374151; \x7d
        .article-body p strong \x7b font-weight: 600; color: #111827; \x7d
        .article-bo".data ++
  ("dy p em \x7b font-style: italic; color: #6B7280; \x7d
        .article-body h2 \x7b font-family: \x27Marcellus\x27, Georgia, serif; font-size: 1.75rem; margin: 48px 0 24px; color: #111827; line-height: 1.2; \x7d
        .article-body ul \x7b margin: 0 0 24px 0; padding-left: 0; list-style: none; \x7d
        .article-body ul li \x7b padding: 8px 0 8px 24px; position: relative; font-size: 18px; line-height: 1.8; color: #374151; \x7d
        .article-body ul li::before \x7b content: \x27\x27; position: absolute; left: 0; top: 18px; width: 6px; height: 6px; background: #111827; border-radius: 50%; \x7d
        .article-body blockquote \x7b margin: 32px 0; padding: 24px 32px; border-left: 3px solid #111827; background: #F9FAFB; font-style: italic; color: #374151; \x7d
        .article-body .separator \x7b text-align: center; margin: 48px 0; color: #D1D5DB; font-size: 1.5rem; letter-spacing: 0.5em; \x7d
        .article-body a \x7b color: #111827; text-decoration: underline; text-underline-offset: 3px; text-decoration-thickness: 1px; \x7d
        .article-body a:hover \x7b color: #6B7280; \x7d
        .author-bio \x7b margin-top: 64px; padding-top: 32px; border-top: 1px solid #E5E7EB; font-size: 15px; color: #6B7280; line-height: 1.7; \x7d
        .back-link \x7b display: inline-block; margin-top: 48px; font-family: \x27Inter\x27, sans-serif; font-weight: 500; font-size: 13px; text-transform: uppercase; letter-spacing: 0.1em; color: #9CA3AF; transition: color 200ms; \x7d
        .back-link:hover \x7b color: #111827; \x7d
        .back-link::before \x7b content: \x27\\2190\\00a0\\00a0\x27; \x7d
        .article-newsletter \x7b margin-top: 48px; padding: 32px; border: 2px solid #111827; text-align: center; \x7d
        .article-newsletter__heading \x7b font-family: \x27Inter\x27, sans-serif; font-weight: 500; font-size: 15px; color: #111827; margin-bottom: 4px; \x7d
        .article-newsletter__sub \x7b font-size: 14px; color: #6B7280; margin-bottom: 16px; \x7d
        .article-newsletter__row \x7b display: flex; gap: 8px; \x7d
        .article-newsletter__row .newsletter-input \x7b flex: 1; border: 1px solid #E5E7EB; background: #F9FAFB; padding: 12px; font-family: \x27Inter\x27, sans-serif; font-size: 14px; font-weight: 300; color: #111827; \x7d
        .article-newsletter__row .newsletter-input::placeholder \x7b color: #9CA3AF; \x7d
        .article-newsletter__row .newsletter-btn \x7b background: #111827; color: #FFFFFF; text-transform: uppercase; letter-spacing: 0.1em; font-family: \x27Inter\x27, sans-serif; font-weight: 500; font-size: 12px; padding: 12px 24px; border: none; cursor: pointer; transition: background 200ms; white-space: nowrap; \x7d
        .article-newsletter__row .newsletter-btn:hover \x7b background: #000000; \x7d
        .article-newsletter__row .newsletter-btn:disabled \x7b opacity: 0.6; cursor: not-allowed; \x7d
        .newsletter-message \x7b margin-top: 8px; font-size: 13px; text-align: center; \x7d
        .newsletter-message.success \x7b color: #059669; \x7d
        .newsletter-message.error \x7b color: #DC2626; \x7d
        @media (max-width: 480px) \x7b .article-newsletter__row \x7b flex-direction: column; \x7d \x7d
    ".data ++
  ("    .site-footer \x7b background: #F9FAFB; border-top: 1px solid #E5E7EB; padding: 32px 0; \x7d
        .footer-inner \x7b display: flex; justify-content: space-between; align-items: center; max-width: 1280px; margin: 0 auto; padding: 0 32px; \x7d
        .footer-copy \x7b font-family: \x27JetBrains Mono\x27, monospace; font-size: 11px; color: #9CA3AF; text-transform: uppercase; letter-spacing: 0.1em; \x7d
        .footer-social \x7b display: flex; gap: 20px; \x7d
        .footer-social a \x7b display: flex; align-items: center; color: #9CA3AF; transition: color 200ms; \x7d
        .footer-social a:hover \x7b color: #111827; \x7d
        .footer-social svg \x7b width: 20px; height: 20px; \x7d
        @media (max-width: 768px) \x7b .header-inner \x7b padding: 0 20px; \x7d .article-container \x7b padding: 32px 20px 64px; \x7d .article-hero img \x7b height: 320px; \x7d .footer-inner \x7b padding: 0 20px; \x7d \x7d
        @media (max-width: 480px) \x7b .header-inner \x7b padding: 0 16px; \x7d .header-nav \x7b gap: 20px; \x7d .article-container \x7b padding: 24px 16px 48px; \x7d .article-hero img \x7b height: 240px; \x7d .footer-inner \x7b flex-direction: column; gap: 16px; padding: 0 16px; \x7d \x7d
    </style>
</head>
<body>
    <header class=\"site-header\"><div class=\"header-inner\"><div class=\"header-logo\"><a href=\"index.html\">HOLISTIQUE</a></div><nav class=\"header-nav\"><a href=\"index.html\">Home</a><a href=\"blog.html\">Journal</a><a href=\"#\">About</a></nav></div></header>

    <div class=\"article-hero\">
        <img src=\"".data ++
  (heroImage ++
  ("\" alt=\"".data ++
  (escapeHtml title ++
  ("\">
    </div>

    <article class=\"article-container\">
        <span class=\"article-category\">".data ++
  (escapeHtml category ++
  ("</span>
        <h1 class=\"article-title\">".data ++
  (escapeHtml title ++
  ("</h1>
        <p class=\"article-subtitle\">".data ++
  (escapeHtml subtitle ++
  ("</p>
        <p class=\"article-meta\">By Yvonne &middot; ".data ++
  (date ++
  (" &middot; ".data ++
  (natToChars readTime ++
  (" Min Read</p>

        <div class=\"article-body\">
            ".data ++
  (bodyHtml ++
  ("
        </div>

        <div class=\"author-bio\">
            <p>Yvonne is a former model turned acupuncturist and sound healer. Today she organises holistic events and retreats for her community of conscious souls in London. You can find her on Instagram: <a href=\"https://instagram.com/yvonne.holistique/\" target=\"_blank\">@yvonne.holistique</a></p>
        </div>

        <div class=\"article-newsletter\">
            <p class=\"article-newsletter__heading\">Enjoyed this article?</p>
            <p class=\"article-newsletter__sub\">Get new posts from Yvonne delivered to your inbox.</p>
            <form id=\"newsletter-form\" onsubmit=\"return false;\">
                <div class=\"article-newsletter__row\">
                    <input type=\"email\" class=\"newsletter-input\" placeholder=\"Your email address\" required>
                    <button type=\"submit\" class=\"newsletter-btn\">Subscribe</button>
                </div>
            </form>
        </div>

        <a href=\"blog-post.html\" class=\"back-link\">Back to Journal</a>
    </article>

    <footer class=\"site-footer\"><div class=\"footer-inner\"><span class=\"footer-copy\">&copy; 2025 Holistique UK</span><div class=\"footer-social\"><a href=\"https://instagram.com/yvonne.holistique/\" target=\"_blank\" aria-label=\"Instagram\"><svg viewBox=\"0 0 24 24\" fill=\"none\" stroke=\"currentColor\" stroke-width=\"1.5\" stroke-linecap=\"round\" stroke-linejoin=\"round\"><rect x=\"2\" y=\"2\" width=\"20\" height=\"20\" rx=\"5\"></rect><circle cx=\"12\" cy=\"12\" r=\"5\"></circle><circle cx=\"17.5\" cy=\"6.5\" r=\"1.5\" fill=\"currentColor\" stroke=\"none\"></circle></svg></a><a href=\"https://medium.com/@yvonne.holistique\" target=\"_blank\" aria-label=\"Medium\"><svg viewBox=\"0 0 24 24\" fill=\"currentColor\"><path d=\"M13.54 12a6.8 6.8 0 01-6.77 6.82A6.8 6.8 0 010 12a6.8 6.8 0 016.77-6.82A6.8 6.8 0 0113.54 12zM20.96 12c0 3.54-1.51 6.42-3.38 6.42-1.87 0-3.39-2.88-3.39-6.42s1.52-6.42 3.39-6.42 3.38 2.88 3.38 6.42M24 12c0 3.17-.53 5.75-1.19 5.75-.66 0-1.19-2.58-1.19-5.75s.53-5.75 1.19-5.75C23.47 6.25 24 8.83 24 12z\"/></svg></a></div></div></footer>

    <script>
    window.addEventListener(\x27DOMContentLoaded\x27, function() \x7b
        document.body.classList.add(\x27loaded\x27);
        var SUBSCRIBE_URL = \x27https://peter17tu.app.n8n.cloud/webhook/subscribe\x27;
        var nlForm = document.getElementById(\x27newsletter-form\x27);
        if (nlForm) \x7b
            nlForm.addEventListener(\x27submit\x27, function(e) \x7b
                e.preventDefault();
                var input = nlForm.querySelector(\x27.newsletter-input\x27);
                var btn = nlForm.querySelector(\x27.newsletter-btn\x27);
                var email = input.value.trim();
                if (!email || !/^[^\\s@]+@[^\\s@]+\\.[^\\s@]+$/.test(email)) \x7b
                    showMsg(nlForm, \x27Please enter a valid email address.\x27, \x27error\x27); return;
                \x7d
                if (!SUBSCRIBE_URL) \x7b showMsg(nlForm, \x27Subscribe is not configured yet.\x27, \x27error\x27); return; \x7d
                btn.textContent = \x27Subscribing...\x27; btn.disabled = true;".data ++
  ("
                fetch(SUBSCRIBE_URL, \x7b method: \x27POST\x27, headers: \x7b \x27Content-Type\x27: \x27application/json\x27 \x7d, body: JSON.stringify(\x7b email: email \x7d) \x7d)
                .then(function(r) \x7b return r.json(); \x7d)
                .then(function(d) \x7b
                    if (d.success) \x7b showMsg(nlForm, \x27Welcome aboard! Check your inbox.\x27, \x27success\x27); input.value = \x27\x27; \x7d
                    else \x7b showMsg(nlForm, d.error || \x27Something went wrong.\x27, \x27error\x27); \x7d
                \x7d)
                .catch(function() \x7b showMsg(nlForm, \x27Network error. Please try again.\x27, \x27error\x27); \x7d)
                .finally(function() \x7b btn.textContent = \x27Subscribe\x27; btn.disabled = false; \x7d);
            \x7d);
        \x7d
        function showMsg(form, text, type) \x7b
            var ex = form.querySelector(\x27.newsletter-message\x27); if (ex) ex.remove();
            var m = document.createElement(\x27p\x27); m.className = \x27newsletter-message \x27 + type; m.textContent = text;
            form.appendChild(m); setTimeout(function() \x7b if (m.parentNode) m.remove(); \x7d, 5000);
        \x7d
    \x7d);
    </script>
</body>
</html>
".data)))))))))))))))))))))

end SyncMedium

namespace SyncMedium

/-- Per-character description of `escapeHtml`'s effect, used to state
the escaping theorems: the four reserved characters map to their
entities, every other character to itself. -/
def escChar (c : Char) : List Char :=
  if c = '&' then "&amp;".data
  else if c = '<' then "&lt;".data
  else if c = '>' then "&gt;".data
  else if c = '"' then "&quot;".data
  else [c]

end SyncMedium

/-! General lemmas about the string helpers. -/

/-- A pattern is a boolean prefix of itself followed by anything. -/
theorem isPrefixOf_append_self (l r : List Char) : l.isPrefixOf (l ++ r) = true := by
  induction l with
  | nil => simp [List.isPrefixOf]
  | cons a t ih => simp [List.isPrefixOf, ih]

/-- Embedding of `replaceSection` signals `NotFound` whenever either marker is
absent from the document. -/
theorem replaceSection_none_of_absent {html b e c : List Char}
    (h : idxOf b html = none ∨ idxOf e html = none) :
    SyncEvents.replaceSection html b e c = none := by
  rcases h with h | h
  · cases he : idxOf e html <;>
      simp [SyncEvents.replaceSection, h, he]
  · cases hb : idxOf b html <;>
      simp [SyncEvents.replaceSection, h, hb]

/-- Claim C6 — For every document text in which the begin marker or the
end marker is absent, splice (`replaceSection`) returns the NotFound
signal (`null`), never throwing and never guessing an alternate
location; and in `main`'s `events.html` update, when both sections'
markers are absent the document text is left untouched (`changed` stays
`false`, so the file is not rewritten), one diagnostic is emitted per
skipped section, and the run continues. -/
theorem C6_splice_not_found (html b e c up pc : List Char)
    (h : idxOf b html = none ∨ idxOf e html = none)
    (hu : idxOf SyncEvents.UPCOMING_START html = none ∨
          idxOf SyncEvents.UPCOMING_END html = none)
    (hp : idxOf SyncEvents.PAST_START html = none ∨
          idxOf SyncEvents.PAST_END html = none) :
    SyncEvents.replaceSection html b e c = none ∧
    SyncEvents.updateEventsHtml html up pc = (html, false, 2) := by
  refine ⟨replaceSection_none_of_absent h, ?_⟩
  simp [SyncEvents.updateEventsHtml,
        replaceSection_none_of_absent hu,
        replaceSection_none_of_absent hp]

/-- Witness for C6: a document containing neither the generic markers
`[`/`]` nor any of the section markers is returned untouched with two
diagnostics. -/
theorem C6_splice_not_found_witness :
    SyncEvents.replaceSection "hello".data "[".data "]".data "c".data = none ∧
    SyncEvents.updateEventsHtml "hello".data "u".data "p".data =
      ("hello".data, false, 2) :=
  C6_splice_not_found "hello".data "[".data "]".data "c".data "u".data "p".data
    (Or.inl (by decide)) (Or.inl (by decide)) (Or.inl (by decide))

/-- Claim C1, counterexample — the claim says the byte range strictly
between the markers is replaced by `newContent` "and nothing else"; on
the document `AXB` with markers `A`/`B` and content `C` that predicts
`ACB`, but `replaceSection` pads the spliced content with a newline on
each side and returns `A\nC\nB`. -/
theorem C1_splice_exact_counterexample :
    SyncEvents.replaceSection "AXB".data "A".data "B".data "C".data =
      some "A\nC\nB".data ∧
    "A\nC\nB".data ≠ "ACB".data := by
  constructor
  · decide
  · decide

/-- Claim C1, amended — when the first occurrence of the begin marker
opens the decomposition `pre ++ b ++ mid ++ e ++ post` and the first
occurrence of the end marker anywhere in the document (which is where
`replaceSection` looks — not the first occurrence after the begin
marker) is the one following `mid`, the result keeps both markers and
every byte outside the in-between range unchanged and replaces that
range by `'\n' ++ newContent ++ '\n'`. -/
theorem C1_splice_amended (pre b mid e post c : List Char)
    (hb : idxOf b (pre ++ b ++ mid ++ e ++ post) = some pre.length)
    (he : idxOf e (pre ++ b ++ mid ++ e ++ post) =
          some (pre.length + b.length + mid.length)) :
    SyncEvents.replaceSection (pre ++ b ++ mid ++ e ++ post) b e c =
      some (pre ++ b ++ '\n' :: c ++ '\n' :: (e ++ post)) := by
  have htake : (pre ++ b ++ mid ++ e ++ post).take (pre.length + b.length) =
      pre ++ b := by
    have h1 : pre ++ b ++ mid ++ e ++ post = (pre ++ b) ++ (mid ++ e ++ post) := by
      simp [List.append_assoc]
    have h2 : (pre ++ b).length = pre.length + b.length := by
      simp only [List.length_append]
    rw [h1, ← h2, List.take_left]
  have hdrop : (pre ++ b ++ mid ++ e ++ post).drop
      (pre.length + b.length + mid.length) = e ++ post := by
    have h1 : pre ++ b ++ mid ++ e ++ post = (pre ++ b ++ mid) ++ (e ++ post) := by
      simp [List.append_assoc]
    have h2 : (pre ++ b ++ mid).length = pre.length + b.length + mid.length := by
      simp only [List.length_append]
    rw [h1, ← h2, List.drop_left]
  unfold SyncEvents.replaceSection
  rw [hb, he]
  dsimp only
  rw [htake, hdrop]

/-- Witness for the amended C1 on the document `x[y]z` with markers
`[` and `]` and content `C`. -/
theorem C1_splice_amended_witness :
    SyncEvents.replaceSection
        ("x".data ++ "[".data ++ "y".data ++ "]".data ++ "z".data)
        "[".data "]".data "C".data =
      some ("x".data ++ "[".data ++ '\n' :: "C".data ++ '\n' ::
            ("]".data ++ "z".data)) :=
  C1_splice_amended "x".data "[".data "y".data "]".data "z".data "C".data
    (by decide) (by decide)

/-- Claim C10 — every events-sync run caps past events at the 12 most
recent: the past list written to the manifest and the card list
rendered into the past section of the events page (the sliced list the
run feeds `pastSectionContent`) never exceed 12 entries, whatever the
source returned. -/
theorem C10_past_events_cap (now : List Char) (m : SyncEvents.EventsManifest)
    (upcoming pastRaw : List SyncEvents.Event) (eh ih : Option (List Char)) :
    ((SyncEvents.eventsSyncCore now m upcoming pastRaw eh ih).manifestWrite.past).length ≤ 12 ∧
    (SyncEvents.pastCards (pastRaw.take 12)).length ≤ 12 := by
  constructor
  · simp only [SyncEvents.eventsSyncCore, List.length_map, List.length_take]
    omega
  · simp only [SyncEvents.pastCards, List.length_map, List.length_take]
    omega

/-- Claim C7, counterexample — a run that finds nothing new still
writes: with an empty event feed and a manifest already holding exactly
that state, the change signal is `false`, yet the manifest is rewritten
(its `lastSync` is refreshed unconditionally) and the events page is
written (the marker sections are respliced whenever the markers are
found, changed or not). -/
theorem C7_no_writes_counterexample :
    (SyncEvents.eventsSyncCore "2026-02-02T00:00:00.000Z".data
        { lastSync := some "2026-01-01T00:00:00.000Z".data, upcoming := [], past := [] }
        [] []
        (some ("<html><!-- EVENTS-UPCOMING-START --><!-- EVENTS-UPCOMING-END --><!-- EVENTS-PAST-START --><!-- EVENTS-PAST-END --></html>".data))
        none).eventsChanged = false ∧
    (SyncEvents.eventsSyncCore "2026-02-02T00:00:00.000Z".data
        { lastSync := some "2026-01-01T00:00:00.000Z".data, upcoming := [], past := [] }
        [] []
        (some ("<html><!-- EVENTS-UPCOMING-START --><!-- EVENTS-UPCOMING-END --><!-- EVENTS-PAST-START --><!-- EVENTS-PAST-END --></html>".data))
        none).manifestWrite ≠
      { lastSync := some "2026-01-01T00:00:00.000Z".data, upcoming := [], past := [] } ∧
    (SyncEvents.eventsSyncCore "2026-02-02T00:00:00.000Z".data
        { lastSync := some "2026-01-01T00:00:00.000Z".data, upcoming := [], past := [] }
        [] []
        (some ("<html><!-- EVENTS-UPCOMING-START --><!-- EVENTS-UPCOMING-END --><!-- EVENTS-PAST-START --><!-- EVENTS-PAST-END --></html>".data))
        none).eventsPageWrite.isSome = true := by
  refine ⟨by decide, by decide, by decide⟩

/-- Claim C7, amended — in the blog sync a run that finds zero new
records performs no writes (the early return precedes every write); in
the events sync the manifest is written on every run with `lastSync`
refreshed to the run timestamp, whether or not the event data changed
(the change signal gates only the downstream notification). -/
theorem C7_no_writes_amended :
    (∀ (fmtDate : List Char → List Char) (m : SyncMedium.Manifest)
        (items : List SyncMedium.Item),
        items.filter (fun it => SyncMedium.isNew m it) = [] →
        SyncMedium.syncRun fmtDate m items = none) ∧
    (∀ (now : List Char) (m : SyncEvents.EventsManifest)
        (upcoming pastRaw : List SyncEvents.Event)
        (eh ih : Option (List Char)),
        (SyncEvents.eventsSyncCore now m upcoming pastRaw eh ih).manifestWrite.lastSync =
          some now) := by
  constructor
  · intro fmtDate m items h
    simp [SyncMedium.syncRun, h]
  · intro now m upcoming pastRaw eh ih
    simp [SyncEvents.eventsSyncCore]

/-- Witness for the amended C7: an empty feed yields no blog writes,
and an events run stamps the manifest with the run timestamp. -/
theorem C7_no_writes_amended_witness :
    SyncMedium.syncRun (fun s => s) { lastPostNumber := 0, posts := [] } [] = none ∧
    (SyncEvents.eventsSyncCore "T".data { lastSync := none, upcoming := [], past := [] }
        [] [] none none).manifestWrite.lastSync = some "T".data :=
  ⟨C7_no_writes_amended.1 (fun s => s) { lastPostNumber := 0, posts := [] } [] rfl,
   C7_no_writes_amended.2 "T".data { lastSync := none, upcoming := [], past := [] }
     [] [] none none⟩

/-- The import loop's final counter advances by exactly the number of
items imported. -/
theorem importLoop_counter (f : List Char → List Char) (n : Nat)
    (l : List SyncMedium.Item) :
    (SyncMedium.importLoop f n l).1 = n + l.length := by
  induction l generalizing n with
  | nil => simp [SyncMedium.importLoop]
  | cons it rest ih =>
    simp only [SyncMedium.importLoop, ih, List.length_cons]
    omega

/-- The numbers of the entries the import loop pushes are consecutive
from `n + 1`. -/
theorem importLoop_numbers (f : List Char → List Char) (n : Nat)
    (l : List SyncMedium.Item) :
    ((SyncMedium.importLoop f n l).2.1).map SyncMedium.Post.number =
      List.range' (n + 1) l.length := by
  induction l generalizing n with
  | nil => simp [SyncMedium.importLoop]
  | cons it rest ih =>
    simp [SyncMedium.importLoop, SyncMedium.mkPost, ih, List.range'_succ]

/-- The import loop imports every item handed to it, in order, keeping
its title and link. -/
theorem importLoop_items (f : List Char → List Char) (n : Nat)
    (l : List SyncMedium.Item) :
    ((SyncMedium.importLoop f n l).2.1).map
        (fun p => (p.title, p.mediumUrl)) =
      l.map (fun it => (it.title, it.link)) := by
  induction l generalizing n with
  | nil => simp [SyncMedium.importLoop]
  | cons it rest ih =>
    simp [SyncMedium.importLoop, SyncMedium.mkPost, ih]

/-- Claim C3 — a run that imports `k` new records starting from a
manifest whose counter is `lastPostNumber` assigns them exactly the
numbers `lastPostNumber+1, …, lastPostNumber+k` (consecutive, so
strictly increasing in source order with no gaps and no repeats), and
the committed manifest's counter equals `lastPostNumber + k`. -/
theorem C3_sequence_monotonic (fmtDate : List Char → List Char)
    (m : SyncMedium.Manifest) (items : List SyncMedium.Item)
    (h : (items.filter (fun it => SyncMedium.isNew m it)).length ≠ 0) :
    (SyncMedium.syncRun fmtDate m items).map
        (fun r => (r.1.posts.drop m.posts.length).map SyncMedium.Post.number) =
      some (List.range' (m.lastPostNumber + 1)
        ((items.filter (fun it => SyncMedium.isNew m it)).length)) ∧
    (SyncMedium.syncRun fmtDate m items).map (fun r => r.1.lastPostNumber) =
      some (m.lastPostNumber +
        (items.filter (fun it => SyncMedium.isNew m it)).length) := by
  constructor
  · simp only [SyncMedium.syncRun, h, if_false, Option.map_some']
    rw [List.drop_left, importLoop_numbers]
  · simp only [SyncMedium.syncRun, h, if_false, Option.map_some']
    rw [importLoop_counter]

/-- Witness for C3, the spec's concrete scenario: a manifest with one
entry and counter 5, a feed with one known and one new item; the new
item gets number 6 and the committed counter is 6. -/
theorem C3_sequence_monotonic_witness :
    (SyncMedium.syncRun (fun _ => "D".data)
        { lastPostNumber := 5,
          posts := [{ number := 5, title := "Existing Post".data,
                      mediumUrl := "https://x.com/existing".data,
                      file := "post-5.html".data, date := "D".data,
                      category := "Journal".data }] }
        [{ title := "Existing Post".data, link := "https://x.com/existing".data,
           pubDate := [], contentEncoded := [], categories := [] },
         { title := "Breath & Calm".data, link := "https://x.com/breath-calm/".data,
           pubDate := [], contentEncoded := [], categories := [] }]).map
        (fun r => (r.1.posts.drop 1).map SyncMedium.Post.number) =
      some (List.range' 6 1) ∧
    (SyncMedium.syncRun (fun _ => "D".data)
        { lastPostNumber := 5,
          posts := [{ number := 5, title := "Existing Post".data,
                      mediumUrl := "https://x.com/existing".data,
                      file := "post-5.html".data, date := "D".data,
                      category := "Journal".data }] }
        [{ title := "Existing Post".data, link := "https://x.com/existing".data,
           pubDate := [], contentEncoded := [], categories := [] },
         { title := "Breath & Calm".data, link := "https://x.com/breath-calm/".data,
           pubDate := [], contentEncoded := [], categories := [] }]).map
        (fun r => r.1.lastPostNumber) = some 6 :=
  C3_sequence_monotonic (fun _ => "D".data)
    { lastPostNumber := 5,
      posts := [{ number := 5, title := "Existing Post".data,
                  mediumUrl := "https://x.com/existing".data,
                  file := "post-5.html".data, date := "D".data,
                  category := "Journal".data }] }
    [{ title := "Existing Post".data, link := "https://x.com/existing".data,
       pubDate := [], contentEncoded := [], categories := [] },
     { title := "Breath & Calm".data, link := "https://x.com/breath-calm/".data,
       pubDate := [], contentEncoded := [], categories := [] }]
    (by decide)

/-- Claim C2, counterexample — two records in one fetch that share an
identity key (the same title) and are both absent from the manifest are
both classified new and both imported: the filter consults only the
index built from the manifest before the run, and nothing updates it as
records are confirmed, so the run commits two entries for the same
identity. -/
theorem C2_running_index_counterexample :
    ([({ title := "Yoga".data, link := "https://x.com/a".data, pubDate := [],
         contentEncoded := [], categories := [] } : SyncMedium.Item),
      ({ title := "Yoga".data, link := "https://x.com/b".data, pubDate := [],
         contentEncoded := [], categories := [] } : SyncMedium.Item)].filter
        (fun it => SyncMedium.isNew { lastPostNumber := 0, posts := [] } it)).length = 2 ∧
    (SyncMedium.syncRun (fun _ => "D".data) { lastPostNumber := 0, posts := [] }
        [{ title := "Yoga".data, link := "https://x.com/a".data, pubDate := [],
           contentEncoded := [], categories := [] },
         { title := "Yoga".data, link := "https://x.com/b".data, pubDate := [],
           contentEncoded := [], categories := [] }]).map
        (fun r => r.1.posts.map (fun p => (p.title, p.number))) =
      some [("Yoga".data, 1), ("Yoga".data, 2)] := by
  refine ⟨by decide, by decide⟩

/-- Claim C2, amended — classification uses only the pre-run index:
whenever the filtered list is non-empty, the run imports every filtered
item, one manifest entry per item in source order with its title and
link kept; in particular two in-fetch records sharing an identity key
that is absent from the manifest are both imported. -/
theorem C2_pre_run_index_amended (fmtDate : List Char → List Char)
    (m : SyncMedium.Manifest) (items : List SyncMedium.Item)
    (h : (items.filter (fun it => SyncMedium.isNew m it)).length ≠ 0) :
    (SyncMedium.syncRun fmtDate m items).map
        (fun r => (r.1.posts.drop m.posts.length).map
          (fun p => (p.title, p.mediumUrl))) =
      some ((items.filter (fun it => SyncMedium.isNew m it)).map
        (fun it => (it.title, it.link))) := by
  simp only [SyncMedium.syncRun, h, if_false, Option.map_some']
  rw [List.drop_left, importLoop_items]

/-- Witness for the amended C2: the duplicate pair of the counterexample
scenario, with both imports visible through the theorem. -/
theorem C2_pre_run_index_amended_witness :
    (SyncMedium.syncRun (fun _ => "D".data) { lastPostNumber := 0, posts := [] }
        [{ title := "Yoga".data, link := "https://x.com/a".data, pubDate := [],
           contentEncoded := [], categories := [] },
         { title := "Yoga".data, link := "https://x.com/b".data, pubDate := [],
           contentEncoded := [], categories := [] }]).map
        (fun r => (r.1.posts.drop 0).map (fun p => (p.title, p.mediumUrl))) =
      some [("Yoga".data, "https://x.com/a".data),
            ("Yoga".data, "https://x.com/b".data)] :=
  C2_pre_run_index_amended (fun _ => "D".data) { lastPostNumber := 0, posts := [] }
    [{ title := "Yoga".data, link := "https://x.com/a".data, pubDate := [],
       contentEncoded := [], categories := [] },
     { title := "Yoga".data, link := "https://x.com/b".data, pubDate := [],
       contentEncoded := [], categories := [] }]
    (by decide)

/-- Embedding of `takeWhile` passes over a block whose characters all satisfy the
predicate. -/
theorem takeWhile_append_all (p : Char → Bool) (xs ys : List Char)
    (h : ∀ c ∈ xs, p c = true) :
    (xs ++ ys).takeWhile p = xs ++ ys.takeWhile p := by
  induction xs with
  | nil => simp
  | cons a t ih =>
    simp only [List.cons_append, List.takeWhile_cons]
    rw [h a (by simp)]
    simp [ih (fun c hc => h c (by simp [hc]))]

/-- The scheme step of the URL model on an `https://` link. -/
theorem dropUrlScheme_https (r : List Char) :
    SyncMedium.dropUrlScheme ("https://".data ++ r) = some r := by
  have h8 : ("https://".data).length = 8 := rfl
  simp only [SyncMedium.dropUrlScheme, isPrefixOf_append_self, if_true]
  rw [← h8, List.drop_left]

/-- Embedding of `urlPathname` of `https://auth ++ path ++ extra`: with a non-empty
authority free of `/`, `?`, `#` and a path starting with `/`, the
pathname is the `?`/`#`-free prefix of `path ++ extra`. -/
theorem urlPathname_append (auth path extra : List Char)
    (hauth1 : auth ≠ [])
    (hauth2 : ∀ c ∈ auth, c ≠ '/' ∧ c ≠ '?' ∧ c ≠ '#')
    (hpath : path.head? = some '/') :
    SyncMedium.urlPathname ("https://".data ++ auth ++ path ++ extra) =
      some ((path ++ extra).takeWhile (fun c2 => ¬(c2 = '?' ∨ c2 = '#'))) := by
  obtain ⟨p0, path', rfl⟩ : ∃ p0 path', path = p0 :: path' := by
    cases path with
    | nil => simp at hpath
    | cons p0 path' => exact ⟨p0, path', rfl⟩
  have hp0 : p0 = '/' := by simpa using hpath
  subst hp0
  have hassoc : "https://".data ++ auth ++ ('/' :: path') ++ extra =
      "https://".data ++ (auth ++ ('/' :: path' ++ extra)) := by
    simp [List.append_assoc]
  rw [hassoc]
  unfold SyncMedium.urlPathname
  rw [dropUrlScheme_https]
  have htw : (auth ++ ('/' :: path' ++ extra)).takeWhile
      (fun c => ¬(c = '/' ∨ c = '?' ∨ c = '#')) = auth := by
    rw [takeWhile_append_all _ _ _ (fun c hc => by
      have := hauth2 c hc
      simp [this.1, this.2.1, this.2.2])]
    simp
  dsimp only
  rw [htw]
  rw [if_neg (by simp [List.length_eq_zero, hauth1])]
  rw [List.drop_left]
  simp

/-- Embedding of `normalizeLink` of an `https` link that is `auth ++ path` decorated
with nothing, a trailing slash, a query string, or both: the normalized
key is always the bare `path`. -/
theorem normalizeLink_https (auth path extra : List Char)
    (hauth1 : auth ≠ [])
    (hauth2 : ∀ c ∈ auth, c ≠ '/' ∧ c ≠ '?' ∧ c ≠ '#')
    (hpath1 : path.head? = some '/')
    (hpath2 : ∀ c ∈ path, c ≠ '?' ∧ c ≠ '#')
    (hpath3 : path.getLast? ≠ some '/')
    (hextra : extra = [] ∨ extra = ['/'] ∨ (∃ q, extra = '?' :: q) ∨
              (∃ q, extra = '/' :: '?' :: q)) :
    SyncMedium.normalizeLink ("https://".data ++ auth ++ path ++ extra) = path := by
  have hpw : ∀ c ∈ path, (fun c2 => ¬(c2 = '?' ∨ c2 = '#') : Char → Bool) c = true := by
    intro c hc
    have := hpath2 c hc
    simp [this.1, this.2]
  have hbase := urlPathname_append auth path extra hauth1 hauth2 hpath1
  unfold SyncMedium.normalizeLink
  rw [hbase]
  rcases hextra with rfl | rfl | ⟨q, rfl⟩ | ⟨q, rfl⟩
  · rw [List.append_nil, List.takeWhile_eq_self_iff.mpr hpw]
    simp [SyncMedium.dropTrailingSlash, hpath3]
  · rw [takeWhile_append_all _ _ _ hpw]
    have : ([ '/' ] : List Char).takeWhile (fun c2 => ¬(c2 = '?' ∨ c2 = '#')) = ['/'] := by
      decide
    rw [this]
    simp [SyncMedium.dropTrailingSlash, List.getLast?_concat, List.dropLast_concat]
  · rw [takeWhile_append_all _ _ _ hpw]
    have : ('?' :: q).takeWhile (fun c2 => ¬(c2 = '?' ∨ c2 = '#')) = [] := by
      simp [List.takeWhile_cons]
    rw [this]
    simp [SyncMedium.dropTrailingSlash, hpath3]
  · rw [takeWhile_append_all _ _ _ hpw]
    have : ('/' :: '?' :: q).takeWhile (fun c2 => ¬(c2 = '?' ∨ c2 = '#')) = ['/'] := by
      simp [List.takeWhile_cons]
    rw [this]
    simp [SyncMedium.dropTrailingSlash, List.getLast?_concat, List.dropLast_concat]

/-- Claim C4, counterexample — the claim's "never both imported" fails
within a single run: two source items whose links differ only by a
trailing slash map to the same normalized key, yet when neither is in
the manifest both pass the pre-run filter and both are imported. -/
theorem C4_identity_collapse_counterexample :
    SyncMedium.normalizeLink "https://x.com/a".data =
      SyncMedium.normalizeLink "https://x.com/a/".data ∧
    (SyncMedium.syncRun (fun _ => "D".data) { lastPostNumber := 0, posts := [] }
        [{ title := "A".data, link := "https://x.com/a".data, pubDate := [],
           contentEncoded := [], categories := [] },
         { title := "B".data, link := "https://x.com/a/".data, pubDate := [],
           contentEncoded := [], categories := [] }]).map
        (fun r => r.1.posts.length) = some 2 := by
  refine ⟨by decide, by decide⟩

/-- Claim C4, amended — two links identical apart from a trailing slash
or a query string map to the same normalized key (the URL pathname with
query string and trailing slash stripped), and if one of them is
recorded in the manifest, an item carrying the other is classified as
already known; only when neither is in the manifest can both enter one
run's import (the counterexample). -/
theorem C4_identity_collapse_amended (m : SyncMedium.Manifest)
    (p : SyncMedium.Post) (it : SyncMedium.Item)
    (auth path extraUrl extraLink : List Char)
    (hmem : p ∈ m.posts)
    (hauth1 : auth ≠ [])
    (hauth2 : ∀ c ∈ auth, c ≠ '/' ∧ c ≠ '?' ∧ c ≠ '#')
    (hpath1 : path.head? = some '/')
    (hpath2 : ∀ c ∈ path, c ≠ '?' ∧ c ≠ '#')
    (hpath3 : path.getLast? ≠ some '/')
    (hvarUrl : extraUrl = [] ∨ extraUrl = ['/'] ∨ (∃ q, extraUrl = '?' :: q) ∨
               (∃ q, extraUrl = '/' :: '?' :: q))
    (hvarLink : extraLink = [] ∨ extraLink = ['/'] ∨ (∃ q, extraLink = '?' :: q) ∨
                (∃ q, extraLink = '/' :: '?' :: q))
    (hurl : p.mediumUrl = "https://".data ++ auth ++ path ++ extraUrl)
    (hlink : it.link = "https://".data ++ auth ++ path ++ extraLink) :
    SyncMedium.normalizeLink it.link = SyncMedium.normalizeLink p.mediumUrl ∧
    SyncMedium.isNew m it = false := by
  have hnUrl : SyncMedium.normalizeLink p.mediumUrl = path := by
    rw [hurl]
    exact normalizeLink_https auth path extraUrl hauth1 hauth2 hpath1 hpath2 hpath3 hvarUrl
  have hnLink : SyncMedium.normalizeLink it.link = path := by
    rw [hlink]
    exact normalizeLink_https auth path extraLink hauth1 hauth2 hpath1 hpath2 hpath3 hvarLink
  refine ⟨by rw [hnUrl, hnLink], ?_⟩
  have hmemUrl : path ∈ SyncMedium.existingUrls m := by
    have : SyncMedium.normalizeLink p.mediumUrl ∈ SyncMedium.existingUrls m :=
      List.mem_map_of_mem (fun p => SyncMedium.normalizeLink p.mediumUrl) hmem
    rwa [hnUrl] at this
  have hcont : (SyncMedium.existingUrls m).contains (SyncMedium.normalizeLink it.link) = true := by
    rw [hnLink]
    simpa using hmemUrl
  simp only [SyncMedium.isNew, Bool.and_eq_false_iff, Bool.not_eq_false']
  right
  exact hcont

/-- Witness for the amended C4, the spec's concrete scenario: the
manifest records `https://x.com/breath-calm`; an item whose link adds a
trailing slash and a query string normalizes to the same key and is
classified as already known. -/
theorem C4_identity_collapse_amended_witness :
    SyncMedium.normalizeLink "https://x.com/breath-calm/?utm=1".data =
      SyncMedium.normalizeLink "https://x.com/breath-calm".data ∧
    SyncMedium.isNew
      { lastPostNumber := 1,
        posts := [{ number := 1, title := "Breath & Calm".data,
                    mediumUrl := "https://x.com/breath-calm".data,
                    file := "post-1.html".data, date := "D".data,
                    category := "Journal".data }] }
      { title := "Fresh Title".data, link := "https://x.com/breath-calm/?utm=1".data,
        pubDate := [], contentEncoded := [], categories := [] } = false :=
  C4_identity_collapse_amended
    { lastPostNumber := 1,
      posts := [{ number := 1, title := "Breath & Calm".data,
                  mediumUrl := "https://x.com/breath-calm".data,
                  file := "post-1.html".data, date := "D".data,
                  category := "Journal".data }] }
    { number := 1, title := "Breath & Calm".data,
      mediumUrl := "https://x.com/breath-calm".data,
      file := "post-1.html".data, date := "D".data, category := "Journal".data }
    { title := "Fresh Title".data, link := "https://x.com/breath-calm/?utm=1".data,
      pubDate := [], contentEncoded := [], categories := [] }
    "x.com".data "/breath-calm".data [] ('/' :: '?' :: "utm=1".data)
    (by decide) (by decide) (by decide) (by decide) (by decide) (by decide)
    (Or.inl rfl) (Or.inr (Or.inr (Or.inr ⟨"utm=1".data, rfl⟩)))
    (by decide) (by decide)

/-- A prefix window of the suffix is enough for `take`. -/
theorem take_append_take_ge (m j : Nat) (t y : List Char) (h : m ≤ t.length + j) :
    (t ++ y.take j).take m = (t ++ y).take m := by
  induction t generalizing m with
  | nil =>
    simp only [List.nil_append, List.take_take]
    congr 1
    simp at h
    omega
  | cons b t' ih =>
    cases m with
    | zero => simp
    | succ k =>
      simp only [List.cons_append, List.take_succ_cons]
      rw [ih k (by simp at h ⊢; omega)]

/-- Embedding of `isPrefixOf` inspects only the first `pat.length` characters. -/
theorem isPrefixOf_congr_take {pat l l' : List Char}
    (h : l.take pat.length = l'.take pat.length) :
    pat.isPrefixOf l = pat.isPrefixOf l' := by
  induction pat generalizing l l' with
  | nil => simp [List.isPrefixOf]
  | cons a q ih =>
    cases l with
    | nil =>
      cases l' with
      | nil => rfl
      | cons c n => simp [List.take_succ_cons] at h
    | cons b m =>
      cases l' with
      | nil => simp [List.take_succ_cons] at h
      | cons c n =>
        simp only [List.length_cons, List.take_succ_cons, List.cons.injEq] at h
        simp only [List.isPrefixOf, h.1, ih h.2]

/-- Scanning an append in two pieces: no occurrence in the first piece
extended by a window of `pat.length - 1` characters, and none in the
second piece, means none in the whole. -/
theorem containsSub_append_false (pat x y : List Char)
    (h1 : containsSub pat (x ++ y.take (pat.length - 1)) = false)
    (h2 : containsSub pat y = false) :
    containsSub pat (x ++ y) = false := by
  induction x with
  | nil => simpa using h2
  | cons a t ih =>
    have hpat : pat ≠ [] := by
      intro hp
      subst hp
      cases y <;> simp [containsSub, List.isPrefixOf] at h2
    obtain ⟨p0, q, rfl⟩ : ∃ p0 q, pat = p0 :: q := by
      cases pat with
      | nil => exact absurd rfl hpat
      | cons p0 q => exact ⟨p0, q, rfl⟩
    simp only [List.cons_append, containsSub, Bool.or_eq_false_iff] at h1 ⊢
    refine ⟨?_, ih h1.2⟩
    have htake : (a :: (t ++ y)).take (p0 :: q).length =
        (a :: (t ++ y.take ((p0 :: q).length - 1))).take (p0 :: q).length := by
      simp only [List.length_cons, List.take_succ_cons, Nat.add_sub_cancel]
      exact congrArg (fun l => a :: l)
        (take_append_take_ge q.length q.length t y (by omega)).symm
    exact (isPrefixOf_congr_take htake).trans h1.1

/-- Embedding of `replaceAllChar` distributes over append. -/
theorem replaceAllChar_append (c : Char) (r x y : List Char) :
    replaceAllChar c r (x ++ y) = replaceAllChar c r x ++ replaceAllChar c r y := by
  induction x with
  | nil => simp [replaceAllChar]
  | cons a t ih =>
    by_cases h : a = c <;> simp [replaceAllChar, h, ih]

/-- Embedding of `replaceAllChar` fixes a string free of the replaced character. -/
theorem replaceAllChar_of_not_mem {c : Char} {x : List Char} (r : List Char)
    (h : c ∉ x) :
    replaceAllChar c r x = x := by
  induction x with
  | nil => rfl
  | cons a t ih =>
    simp only [List.mem_cons, not_or] at h
    simp [replaceAllChar, Ne.symm h.1, ih h.2]

/-- One step of `escapeHtml`: the head character is rewritten by
`escChar`, independently of the tail. -/
theorem escapeHtml_cons (a : Char) (t : List Char) :
    SyncMedium.escapeHtml (a :: t) =
      SyncMedium.escChar a ++ SyncMedium.escapeHtml t := by
  unfold SyncMedium.escapeHtml SyncMedium.escChar
  by_cases h1 : a = '&'
  · subst h1
    rw [show replaceAllChar '&' "&amp;".data ('&' :: t) =
          "&amp;".data ++ replaceAllChar '&' "&amp;".data t from by
        simp [replaceAllChar]]
    rw [replaceAllChar_append '<' "&lt;".data "&amp;".data]
    rw [show replaceAllChar '<' "&lt;".data "&amp;".data = "&amp;".data from by decide]
    rw [replaceAllChar_append '>' "&gt;".data "&amp;".data]
    rw [show replaceAllChar '>' "&gt;".data "&amp;".data = "&amp;".data from by decide]
    rw [replaceAllChar_append '"' "&quot;".data "&amp;".data]
    rw [show replaceAllChar '"' "&quot;".data "&amp;".data = "&amp;".data from by decide]
    simp
  · by_cases h2 : a = '<'
    · subst h2
      rw [show replaceAllChar '&' "&amp;".data ('<' :: t) =
            '<' :: replaceAllChar '&' "&amp;".data t from by
          simp [replaceAllChar]]
      rw [show ∀ X : List Char, replaceAllChar '<' "&lt;".data ('<' :: X) =
            "&lt;".data ++ replaceAllChar '<' "&lt;".data X from by
          intro X; simp [replaceAllChar]]
      rw [replaceAllChar_append '>' "&gt;".data "&lt;".data]
      rw [show replaceAllChar '>' "&gt;".data "&lt;".data = "&lt;".data from by decide]
      rw [replaceAllChar_append '"' "&quot;".data "&lt;".data]
      rw [show replaceAllChar '"' "&quot;".data "&lt;".data = "&lt;".data from by decide]
      simp [h1]
    · by_cases h3 : a = '>'
      · subst h3
        rw [show replaceAllChar '&' "&amp;".data ('>' :: t) =
              '>' :: replaceAllChar '&' "&amp;".data t from by
            simp [replaceAllChar]]
        rw [show ∀ X : List Char, replaceAllChar '<' "&lt;".data ('>' :: X) =
              '>' :: replaceAllChar '<' "&lt;".data X from by
            intro X; simp [replaceAllChar]]
        rw [show ∀ X : List Char, replaceAllChar '>' "&gt;".data ('>' :: X) =
              "&gt;".data ++ replaceAllChar '>' "&gt;".data X from by
            intro X; simp [replaceAllChar]]
        rw [replaceAllChar_append '"' "&quot;".data "&gt;".data]
        rw [show replaceAllChar '"' "&quot;".data "&gt;".data = "&gt;".data from by decide]
        simp [h1, h2]
      · by_cases h4 : a = '"'
        · subst h4
          rw [show replaceAllChar '&' "&amp;".data ('"' :: t) =
                '"' :: replaceAllChar '&' "&amp;".data t from by
              simp [replaceAllChar]]
          rw [show ∀ X : List Char, replaceAllChar '<' "&lt;".data ('"' :: X) =
                '"' :: replaceAllChar '<' "&lt;".data X from by
              intro X; simp [replaceAllChar]]
          rw [show ∀ X : List Char, replaceAllChar '>' "&gt;".data ('"' :: X) =
                '"' :: replaceAllChar '>' "&gt;".data X from by
              intro X; simp [replaceAllChar]]
          rw [show ∀ X : List Char, replaceAllChar '"' "&quot;".data ('"' :: X) =
                "&quot;".data ++ replaceAllChar '"' "&quot;".data X from by
              intro X; simp [replaceAllChar]]
          simp [h1, h2, h3]
        · rw [show replaceAllChar '&' "&amp;".data (a :: t) =
                a :: replaceAllChar '&' "&amp;".data t from by
              simp [replaceAllChar, h1]]
          rw [show ∀ X : List Char, replaceAllChar '<' "&lt;".data (a :: X) =
                a :: replaceAllChar '<' "&lt;".data X from by
              intro X; simp [replaceAllChar, h2]]
          rw [show ∀ X : List Char, replaceAllChar '>' "&gt;".data (a :: X) =
                a :: replaceAllChar '>' "&gt;".data X from by
              intro X; simp [replaceAllChar, h3]]
          rw [show ∀ X : List Char, replaceAllChar '"' "&quot;".data (a :: X) =
                a :: replaceAllChar '"' "&quot;".data X from by
              intro X; simp [replaceAllChar, h4]]
          simp [h1, h2, h3, h4]

/-- Embedding of `escapeHtml` is the per-character substitution `escChar`. -/
theorem escapeHtml_eq_flatMap (s : List Char) :
    SyncMedium.escapeHtml s = s.flatMap SyncMedium.escChar := by
  induction s with
  | nil => rfl
  | cons a t ih => rw [escapeHtml_cons, ih, List.flatMap_cons]

/-- No output of `escChar` contains a raw `<`, `>` or `"`. -/
theorem escChar_no_reserved (c : Char) :
    '<' ∉ SyncMedium.escChar c ∧ '>' ∉ SyncMedium.escChar c ∧
    '"' ∉ SyncMedium.escChar c := by
  unfold SyncMedium.escChar
  by_cases h1 : c = '&'
  · simp [h1]
  by_cases h2 : c = '<'
  · simp [h1, h2]
  by_cases h3 : c = '>'
  · simp [h1, h2, h3]
  by_cases h4 : c = '"'
  · simp [h1, h2, h3, h4]
  · simp [h1, h2, h3, h4]
    exact ⟨Ne.symm h2, Ne.symm h3, Ne.symm h4⟩

set_option maxRecDepth 40000 in
/-- Claim C5, counterexample — not every user-supplied text embedded in
a markup context is escaped: the image URL extracted from the feed's
body markup is interpolated into the card's `src="…"` attribute with no
escaping, so a `&` inside it remains raw in markup-context output
(while the claim requires `&` to be replaced by its escaped form). -/
theorem C5_escaping_counterexample :
    SyncMedium.extractCardImage
        "<p>hi</p><img src=\"https://a.com/i?a=1&b=2\">".data =
      "https://a.com/i?a=1&b=2".data ∧
    containsSub "src=\"https://a.com/i?a=1&b=2\"".data
        (SyncMedium.mkCard (fun _ => "D".data) 1
          { title := "Pic post".data,
            link := "https://x.com/pic".data, pubDate := [],
            contentEncoded := "<p>hi</p><img src=\"https://a.com/i?a=1&b=2\">".data,
            categories := [] }) = true ∧
    containsSub "a=1&amp;b=2".data
        (SyncMedium.mkCard (fun _ => "D".data) 1
          { title := "Pic post".data,
            link := "https://x.com/pic".data, pubDate := [],
            contentEncoded := "<p>hi</p><img src=\"https://a.com/i?a=1&b=2\">".data,
            categories := [] }) = false := by
  refine ⟨by decide, by decide, by decide⟩

set_option maxRecDepth 400000 in
set_option maxHeartbeats 4000000 in
/-- Claim C5, amended — `escapeHtml` rewrites exactly the four reserved
characters `&`, `<`, `>`, `"` to their escaped forms (character by
character, leaving no raw `<`, `>` or `"` in its output; single quotes
are never escaped); the title is escaped at every site where it is
embedded in the standalone page and in the summary-card fragment, so a
title containing all four characters renders in both outputs in fully
escaped form with no raw occurrence of it — but fields interpolated
raw (the image URLs, the date, the body markup) are not escaped (the
counterexample). -/
theorem C5_escaping_amended :
    (∀ s, SyncMedium.escapeHtml s = s.flatMap SyncMedium.escChar) ∧
    (∀ s, '<' ∉ SyncMedium.escapeHtml s ∧ '>' ∉ SyncMedium.escapeHtml s ∧
          '"' ∉ SyncMedium.escapeHtml s) ∧
    (containsSub "a&lt;b&gt;&amp;&quot;c".data
        (SyncMedium.generateCardHtml 7 "a<b>&\"c".data "Cat".data "Exc".data 2
          "Oct 1, 2024".data "img.jpg".data) = true ∧
     containsSub "a<b>&\"c".data
        (SyncMedium.generateCardHtml 7 "a<b>&\"c".data "Cat".data "Exc".data 2
          "Oct 1, 2024".data "img.jpg".data) = false) ∧
    (containsSub "a&lt;b&gt;&amp;&quot;c".data
        (SyncMedium.generatePostHtml "a<b>&\"c".data "Sub".data "Cat".data
          "Oct 1, 2024".data 3 "hero.jpg".data "<p>Body</p>".data) = true ∧
     containsSub "a<b>&\"c".data
        (SyncMedium.generatePostHtml "a<b>&\"c".data "Sub".data "Cat".data
          "Oct 1, 2024".data 3 "hero.jpg".data "<p>Body</p>".data) = false) := by
  refine ⟨escapeHtml_eq_flatMap, ?_, ⟨by decide, by decide⟩, ⟨?_, ?_⟩⟩
  · intro s
    rw [escapeHtml_eq_flatMap]
    refine ⟨?_, ?_, ?_⟩ <;>
    · intro hmem
      rw [List.mem_flatMap] at hmem
      obtain ⟨c, _, hmem'⟩ := hmem
      first
      | exact (escChar_no_reserved c).1 hmem'
      | exact (escChar_no_reserved c).2.1 hmem'
      | exact (escChar_no_reserved c).2.2 hmem'
  · decide
  · unfold SyncMedium.generatePostHtml
    repeat refine containsSub_append_false _ _ _ (by decide) ?_
    decide

set_option maxRecDepth 40000 in
/-- Claim C8, counterexample — an item with both identity-critical
fields absent (empty title and link) is not skipped and no diagnostic
is emitted: it passes the new-item filter like any record whose keys
are unknown and is imported as an (empty-titled) post. -/
theorem C8_defaults_counterexample :
    ([({ title := [], link := [], pubDate := [], contentEncoded := [],
         categories := [] } : SyncMedium.Item)].filter
        (fun it => SyncMedium.isNew
          { lastPostNumber := 1,
            posts := [{ number := 1, title := "Breath & Calm".data,
                        mediumUrl := "https://x.com/breath-calm".data,
                        file := "post-1.html".data, date := "D".data,
                        category := "Journal".data }] } it)).length = 1 ∧
    (SyncMedium.syncRun (fun _ => "D".data)
        { lastPostNumber := 1,
          posts := [{ number := 1, title := "Breath & Calm".data,
                      mediumUrl := "https://x.com/breath-calm".data,
                      file := "post-1.html".data, date := "D".data,
                      category := "Journal".data }] }
        [{ title := [], link := [], pubDate := [], contentEncoded := [],
           categories := [] }]).map
        (fun r => r.1.posts.map (fun p => (p.number, p.title))) =
      some [(1, "Breath & Calm".data), (2, ([] : List Char))] := by
  refine ⟨by decide, by decide⟩

set_option maxRecDepth 40000 in
/-- Claim C8, amended — a source item missing optional structure is
still processed with per-field defaults (a missing tag extracts as the
empty string, the category falls back to `Journal`, a missing image or
first paragraph yields an empty string); but an item with both title
and link absent is not skipped and no diagnostic is emitted: it is
classified through the same pre-run index lookup as every other item
(and imported whenever its empty keys are unknown — the
counterexample). -/
theorem C8_defaults_amended :
    SyncMedium.extractItems
        "<item><link>https://x.com/a</link></item>".data =
      [{ title := [], link := "https://x.com/a".data, pubDate := [],
         contentEncoded := [], categories := [] }] ∧
    SyncMedium.pickCategory [] = "Journal".data ∧
    SyncMedium.extractHeroImage "<p>x</p>".data = [] ∧
    SyncMedium.extractExcerpt "<img>".data = [] ∧
    (∀ (m : SyncMedium.Manifest) (it : SyncMedium.Item),
      it.title = [] → it.link = [] →
      SyncMedium.isNew m it =
        (!((SyncMedium.existingTitles m).contains []) &&
         !((SyncMedium.existingUrls m).contains []))) := by
  refine ⟨by decide, by decide, by decide, by decide, ?_⟩
  intro m it h1 h2
  simp only [SyncMedium.isNew, h1, h2]
  rfl

/-- Witness for the amended C8's classification clause at a concrete
manifest: the empty-identity item is classified new (not skipped)
because the empty keys are not in the index. -/
theorem C8_defaults_amended_witness :
    SyncMedium.isNew
        { lastPostNumber := 1,
          posts := [{ number := 1, title := "Breath & Calm".data,
                      mediumUrl := "https://x.com/breath-calm".data,
                      file := "post-1.html".data, date := "D".data,
                      category := "Journal".data }] }
        { title := [], link := [], pubDate := [], contentEncoded := [],
          categories := [] } =
      (!((SyncMedium.existingTitles
            { lastPostNumber := 1,
              posts := [{ number := 1, title := "Breath & Calm".data,
                          mediumUrl := "https://x.com/breath-calm".data,
                          file := "post-1.html".data, date := "D".data,
                          category := "Journal".data }] }).contains []) &&
       !((SyncMedium.existingUrls
            { lastPostNumber := 1,
              posts := [{ number := 1, title := "Breath & Calm".data,
                          mediumUrl := "https://x.com/breath-calm".data,
                          file := "post-1.html".data, date := "D".data,
                          category := "Journal".data }] }).contains [])) :=
  C8_defaults_amended.2.2.2.2
    { lastPostNumber := 1,
      posts := [{ number := 1, title := "Breath & Calm".data,
                  mediumUrl := "https://x.com/breath-calm".data,
                  file := "post-1.html".data, date := "D".data,
                  category := "Journal".data }] }
    { title := [], link := [], pubDate := [], contentEncoded := [],
      categories := [] }
    rfl rfl

/-- Accumulator invariant of `lastIdxAux`: the result is either the
accumulator or an absolute position holding the character. -/
theorem lastIdxAux_cases (c : Char) (s : List Char) (pos : Nat) (acc : Int) :
    lastIdxAux c pos acc s = acc ∨
    ∃ k, lastIdxAux c pos acc s = ((pos + k : Nat) : Int) ∧ s.get? k = some c := by
  induction s generalizing pos acc with
  | nil => left; rfl
  | cons a t ih =>
    rcases ih (pos + 1) (if a = c then (pos : Int) else acc) with h | ⟨k, hk, hget⟩
    · by_cases hac : a = c
      · right
        refine ⟨0, ?_, by simp [hac]⟩
        show lastIdxAux c (pos + 1) (if a = c then (pos : Int) else acc) t = _
        rw [h, if_pos hac]
        simp
      · left
        show lastIdxAux c (pos + 1) (if a = c then (pos : Int) else acc) t = acc
        rw [h, if_neg hac]
    · right
      refine ⟨k + 1, ?_, by simpa using hget⟩
      show lastIdxAux c (pos + 1) (if a = c then (pos : Int) else acc) t = _
      rw [hk]
      congr 1
      omega

/-- A non-negative `lastIndexOfChar` result points at the character. -/
theorem lastIndexOfChar_mem {c : Char} {s : List Char} {i : Int}
    (h : lastIndexOfChar c s = i) (hpos : 0 ≤ i) : s.get? i.toNat = some c := by
  rcases lastIdxAux_cases c s 0 (-1) with h' | ⟨k, hk, hget⟩
  · rw [lastIndexOfChar, h'] at h
    omega
  · rw [lastIndexOfChar, hk] at h
    have hik : i.toNat = k := by omega
    rwa [hik]

set_option maxRecDepth 40000 in
/-- Claim C9, counterexample — the blog excerpt does not respect word
boundaries: the first paragraph's plain text is the single
161-character word `a…a` (over the 160 budget), and the excerpt is its
first 157 characters plus `...` — the word is cut in the middle (the
text contains no space, so no word boundary can precede the ellipsis). -/
theorem C9_word_boundary_counterexample :
    SyncMedium.extractExcerpt
        ("<p>".data ++ List.replicate 161 'a' ++ "</p>".data) =
      List.replicate 157 'a' ++ "...".data ∧
    trimJs (SyncMedium.decodeHtmlEntities (stripTagsG (List.replicate 161 'a'))) =
      List.replicate 161 'a' ∧
    (161 > 160 ∧ ' ' ∉ List.replicate 161 'a') := by
  refine ⟨by decide, by decide, by decide, by decide⟩

/-- Claim C9, amended — the events-sync `truncateText` strips tags,
collapses whitespace and, when the clean text exceeds the budget and
the truncated prefix contains a space at a positive index, cuts at the
last such space and appends `...` (the cut position holds a space, so
the kept prefix ends at a word boundary); the blog `extractExcerpt`
instead cuts its over-budget text at exactly 157 characters plus `...`
regardless of word boundaries (the counterexample). -/
theorem C9_word_boundary_amended :
    (∀ (text : List Char) (maxLen : Nat) (i : Int),
      text ≠ [] →
      (trimJs (collapseWs (SyncEvents.stripHtml text))).length > maxLen →
      lastIndexOfChar ' '
        ((trimJs (collapseWs (SyncEvents.stripHtml text))).take maxLen) = i →
      0 < i →
      SyncEvents.truncateText text maxLen =
        ((trimJs (collapseWs (SyncEvents.stripHtml text))).take maxLen).take i.toNat
          ++ "...".data ∧
      ((trimJs (collapseWs (SyncEvents.stripHtml text))).take maxLen).get? i.toNat =
        some ' ') ∧
    (∀ (html inner : List Char),
      SyncMedium.scanFirst SyncMedium.tryPTag html = some inner →
      (trimJs (SyncMedium.decodeHtmlEntities (stripTagsG inner))).length > 160 →
      SyncMedium.extractExcerpt html =
        (trimJs (SyncMedium.decodeHtmlEntities (stripTagsG inner))).take 157 ++
          "...".data) := by
  constructor
  · intro text maxLen i htext hlen hlast hpos
    refine ⟨?_, lastIndexOfChar_mem hlast (le_of_lt hpos)⟩
    unfold SyncEvents.truncateText
    rw [if_neg htext]
    dsimp only
    rw [if_neg (by omega)]
    rw [hlast, if_pos hpos]
  · intro html inner hscan hlen
    unfold SyncMedium.extractExcerpt
    rw [hscan]
    dsimp only
    rw [if_pos hlen]

set_option maxRecDepth 40000 in
/-- Witness for the amended C9: truncating
`Hello world this is a test` to 15 characters cuts at the space before
`thi` (index 11 of the truncated prefix, which holds a space), and the
blog excerpt of a paragraph holding a 161-character word is its
157-character cut plus `...`. -/
theorem C9_word_boundary_amended_witness :
    (SyncEvents.truncateText "Hello world this is a test".data 15 =
      ((trimJs (collapseWs
          (SyncEvents.stripHtml "Hello world this is a test".data))).take 15).take
        (Int.toNat 11) ++ "...".data ∧
     ((trimJs (collapseWs
          (SyncEvents.stripHtml "Hello world this is a test".data))).take 15).get?
        (Int.toNat 11) = some ' ') ∧
    SyncMedium.extractExcerpt
        ("<p>".data ++ List.replicate 161 'b' ++ "</p>".data) =
      (trimJs (SyncMedium.decodeHtmlEntities
          (stripTagsG (List.replicate 161 'b')))).take 157 ++ "...".data :=
  ⟨C9_word_boundary_amended.1 "Hello world this is a test".data 15 11
      (by decide) (by decide) (by decide) (by decide),
   C9_word_boundary_amended.2
      ("<p>".data ++ List.replicate 161 'b' ++ "</p>".data)
      (List.replicate 161 'b') (by decide) (by decide)⟩
